import Mathlib

/-! Gravitee plan and subscription resources.

A shallow embedding of the Gravitee client (`client_plan.go`,
`gravitee/client_subscription.go`) and of the resource functions built on it
(`resource_gravitee_plan.go`, `resource_gravitee_subscription.go`).

* The remote service, `http.NewRequest` and the JSON decoder are not part of
  the repository: they are the fields of `Remote`, and every theorem
  quantifies over them.
* `json.Marshal` cannot fail on the structs and string maps that the client
  passes to it, so it is a total function to `Json` and the `err != nil`
  branch after it, which is never taken, is left out.
* Each client method records its invocation (arguments and returned error)
  in the session, so that "is called", "exactly once" and "after" are
  statements about a list.
* `schema.ResourceData` is a typed record holding the prior state and the
  current values, as `d.Get` returns them (a zero value for an unset key).
-/

namespace Gravitee

/-! ## Go values -/

/-- A Go `error`, identified by the text of `Error()`. -/
abbrev GoError := String

/-- A JSON document as `json.Marshal` lays it out: object members in order. -/
inductive Json where
  | null : Json
  | str : String → Json
  | arr : List Json → Json
  | obj : List (String × Json) → Json

/-- The `Security` struct of `client_plan.go`. -/
structure Security where
  Type_ : String
deriving DecidableEq, Repr

/-- The `Plan` struct of `client_plan.go`. `Security` is a pointer (`none` is
nil); a nil and an empty `Characteristics` slice are both `[]`, the program
only takes the length of the slice and marshals it with `omitempty`. -/
structure Plan where
  ID : String
  Name : String
  Description : String
  DefinitionVersion : String
  Mode : String
  Security : Option Security
  Characteristics : List String
  Validation : String
  Status : String
deriving DecidableEq, Repr

/-- The `Header` struct of `client_subscription.go`. -/
structure Header where
  Name : String
  Value : String
deriving DecidableEq, Repr

/-- The `EntrypointConfiguration` struct of `client_subscription.go`. -/
structure EntrypointConfiguration where
  CallbackURL : String
  Headers : List Header
deriving DecidableEq, Repr

/-- The `ConsumerConfiguration` struct of `client_subscription.go`. -/
structure ConsumerConfiguration where
  EntrypointID : String
  Channel : String
  EntrypointConfiguration : Option EntrypointConfiguration
deriving DecidableEq, Repr

/-- The `Subscription` struct of `client_subscription.go`. `Metadata` is a
`map[string]string`: `none` is the nil map, `some kvs` lists the entries in
key order (the order in which `json.Marshal` writes them). -/
structure Subscription where
  ID : String
  PlanID : String
  ApplicationID : String
  Status : String
  ConsumerConfiguration : Option ConsumerConfiguration
  Metadata : Option (List (String × String))
deriving DecidableEq, Repr

/-! ## JSON bodies (`json.Marshal` on the struct tags) -/

/-- A member written with `omitempty` on a string field. -/
def omitEmptyStr (key value : String) : List (String × Json) :=
  if value = "" then [] else [(key, Json.str value)]

/-- Marshalling of `*Security` under the tag `json:"security"`. -/
def marshalSecurity : Option Security → Json
  | none => Json.null
  | some sec => Json.obj [("type", Json.str sec.Type_)]

/-- What `json.Marshal(plan)` writes for a `*Plan`. -/
def marshalPlan (plan : Plan) : Json :=
  Json.obj (omitEmptyStr "id" plan.ID ++
    [("name", Json.str plan.Name),
     ("description", Json.str plan.Description),
     ("definitionVersion", Json.str plan.DefinitionVersion),
     ("mode", Json.str plan.Mode),
     ("security", marshalSecurity plan.Security)] ++
    (if plan.Characteristics = [] then []
     else [("characteristics", Json.arr (plan.Characteristics.map Json.str))]) ++
    omitEmptyStr "validation" plan.Validation ++
    omitEmptyStr "status" plan.Status)

/-- What `json.Marshal` writes for a `Header`. -/
def marshalHeader (h : Header) : Json :=
  Json.obj [("name", Json.str h.Name), ("value", Json.str h.Value)]

/-- What `json.Marshal` writes for an `EntrypointConfiguration`. -/
def marshalEntrypointConfiguration (e : EntrypointConfiguration) : Json :=
  Json.obj ([("callbackUrl", Json.str e.CallbackURL)] ++
    (if e.Headers = [] then [] else [("headers", Json.arr (e.Headers.map marshalHeader))]))

/-- What `json.Marshal` writes for a `ConsumerConfiguration`. -/
def marshalConsumerConfiguration (cc : ConsumerConfiguration) : Json :=
  Json.obj ([("entrypointId", Json.str cc.EntrypointID)] ++
    omitEmptyStr "channel" cc.Channel ++
    (match cc.EntrypointConfiguration with
     | none => []
     | some e => [("entrypointConfiguration", marshalEntrypointConfiguration e)]))

/-- What `json.Marshal` writes for a `map[string]string` with these entries. -/
def marshalStringMap (kvs : List (String × String)) : Json :=
  Json.obj (kvs.map fun kv => (kv.1, Json.str kv.2))

/-- What `json.Marshal(subscription)` writes for a `*Subscription`. -/
def marshalSubscription (sub : Subscription) : Json :=
  Json.obj (omitEmptyStr "id" sub.ID ++
    [("planId", Json.str sub.PlanID),
     ("applicationId", Json.str sub.ApplicationID)] ++
    omitEmptyStr "status" sub.Status ++
    (match sub.ConsumerConfiguration with
     | none => []
     | some cc => [("consumerConfiguration", marshalConsumerConfiguration cc)]) ++
    (match sub.Metadata with
     | none => []
     | some [] => []
     | some kvs => [("metadata", marshalStringMap kvs)]))

/-- The body of `UpdateSubscription`: `json.Marshal` of the
`map[string]interface{}` literal with the keys `"configuration"` and
`"metadata"` (map keys are written sorted; a nil pointer and a nil map are
written `null`). -/
def marshalUpdateSubscriptionBody (sub : Subscription) : Json :=
  Json.obj [("configuration",
      match sub.ConsumerConfiguration with
      | none => Json.null
      | some cc => marshalConsumerConfiguration cc),
    ("metadata",
      match sub.Metadata with
      | none => Json.null
      | some kvs => marshalStringMap kvs)]

/-! ## HTTP -/

/-- The parts of an `*http.Request` that the client sets. -/
structure Request where
  Method : String
  URL : String
  Body : Option Json
  ContentType : Option String
  BasicAuth : Option (String × String)

/-- The parts of an `*http.Response` that the client reads. -/
structure Response where
  StatusCode : Nat
  Body : String
deriving DecidableEq, Repr

/-- Everything outside the repository that a client method depends on. -/
structure Remote where
  /-- The error of `http.NewRequest` for a URL that does not parse. -/
  urlError : String → Option GoError
  /-- The outcome of `c.HTTPClient.Do(req)`, given the requests sent before. -/
  roundTrip : List Request → Request → Except GoError Response
  /-- The outcome of `json.NewDecoder(resp.Body).Decode(&plan)`. -/
  decodePlan : String → Except GoError Plan
  /-- The outcome of `json.NewDecoder(resp.Body).Decode(&subscription)`. -/
  decodeSubscription : String → Except GoError Subscription

/-- The `Client` struct (`HTTPClient` is `Remote.roundTrip`). -/
structure Client where
  ManagementURL : String
  Username : String
  Password : String
deriving DecidableEq, Repr

/-- The call `http.NewRequest(method, url, body)` with one of the four fixed methods. -/
def NewRequest (rt : Remote) (method url : String) (body : Option Json) :
    Except GoError Request :=
  match rt.urlError url with
  | some err => .error err
  | none => .ok { Method := method, URL := url, Body := body,
                  ContentType := none, BasicAuth := none }

/-- The call `req.Header.Set("Content-Type", v)`. -/
def Request.SetContentType (req : Request) (v : String) : Request :=
  { req with ContentType := some v }

/-- The call `req.SetBasicAuth(username, password)`. -/
def Request.SetBasicAuth (req : Request) (username password : String) : Request :=
  { req with BasicAuth := some (username, password) }

/-- The call `c.HTTPClient.Do(req)`: the request joins the history. -/
def Do (rt : Remote) (req : Request) (sent : List Request) :
    Except GoError Response × List Request :=
  (rt.roundTrip sent req, sent ++ [req])

/-- The error `fmt.Errorf("API returned status code %d", code)`. -/
def statusError (code : Nat) : GoError :=
  "API returned status code " ++ toString code

/-- The string `"%s/management/v2/environments/DEFAULT/apis/%s"` formatted. -/
def apiURL (c : Client) (apiID : String) : String :=
  c.ManagementURL ++ "/management/v2/environments/DEFAULT/apis/" ++ apiID

/-! ## The record of client calls -/

/-- A client method together with its arguments. -/
inductive ClientCall where
  | CreatePlan (apiID : String) (plan : Plan)
  | GetPlan (apiID planID : String)
  | UpdatePlan (apiID : String) (plan : Plan)
  | DeletePlan (apiID planID : String)
  | PublishPlan (apiID planID : String)
  | CreateSubscription (apiID : String) (subscription : Subscription)
  | GetSubscription (apiID subscriptionID : String)
  | UpdateSubscription (apiID : String) (subscription : Subscription)
  | CloseSubscription (apiID subscriptionID : String)
  | TransferSubscription (apiID subscriptionID newPlanID : String)
  | AcceptSubscription (apiID subscriptionID reason : String)
deriving DecidableEq, Repr

/-- One finished client call: what was called and the error it returned. -/
structure CallRecord where
  call : ClientCall
  err : Option GoError
deriving DecidableEq, Repr

/-- The calls made and the requests sent so far, oldest first. -/
structure Session where
  calls : List CallRecord
  sent : List Request

/-- The session before anything happened. -/
def Session.empty : Session := { calls := [], sent := [] }

/-- Runs a client method that returns only an `error`, and records the call. -/
def traced (call : ClientCall)
    (body : List Request → Option GoError × List Request) (s : Session) :
    Option GoError × Session :=
  let r := body s.sent
  (r.1, { calls := s.calls ++ [{ call := call, err := r.1 }], sent := r.2 })

/-- The error of a `(value, error)` result. -/
def errOf {α : Type} : Except GoError α → Option GoError
  | .error err => some err
  | .ok _ => none

/-- Runs a client method that returns `(value, error)`, and records the call. -/
def tracedResult {α : Type} (call : ClientCall)
    (body : List Request → Except GoError α × List Request) (s : Session) :
    Except GoError α × Session :=
  let r := body s.sent
  (r.1, { calls := s.calls ++ [{ call := call, err := errOf r.1 }], sent := r.2 })

/-! ## `client_plan.go` -/

/-- The method `(c *Client) CreatePlan(apiID, plan)`. -/
def Client.CreatePlan (c : Client) (rt : Remote) (apiID : String) (plan : Plan) :
    Session → Except GoError Plan × Session :=
  tracedResult (.CreatePlan apiID plan) fun sent =>
    let body := marshalPlan plan
    match NewRequest rt "POST" (apiURL c apiID ++ "/plans") (some body) with
    | .error err => (.error err, sent)
    | .ok req =>
      let req := (req.SetContentType "application/json").SetBasicAuth c.Username c.Password
      match Do rt req sent with
      | (.error err, sent) => (.error err, sent)
      | (.ok resp, sent) =>
        if resp.StatusCode ≠ 201 ∧ resp.StatusCode ≠ 200 then
          (.error (statusError resp.StatusCode), sent)
        else
          match rt.decodePlan resp.Body with
          | .error err => (.error err, sent)
          | .ok createdPlan => (.ok createdPlan, sent)

/-- The method `(c *Client) GetPlan(apiID, planID)`; `.ok none` is the
return `nil, nil`. -/
def Client.GetPlan (c : Client) (rt : Remote) (apiID planID : String) :
    Session → Except GoError (Option Plan) × Session :=
  tracedResult (.GetPlan apiID planID) fun sent =>
    match NewRequest rt "GET" (apiURL c apiID ++ "/plans/" ++ planID) none with
    | .error err => (.error err, sent)
    | .ok req =>
      let req := req.SetBasicAuth c.Username c.Password
      match Do rt req sent with
      | (.error err, sent) => (.error err, sent)
      | (.ok resp, sent) =>
        if resp.StatusCode = 404 then
          (.ok none, sent)
        else if resp.StatusCode ≠ 200 then
          (.error (statusError resp.StatusCode), sent)
        else
          match rt.decodePlan resp.Body with
          | .error err => (.error err, sent)
          | .ok plan => (.ok (some plan), sent)

/-- The method `(c *Client) UpdatePlan(apiID, plan)`. -/
def Client.UpdatePlan (c : Client) (rt : Remote) (apiID : String) (plan : Plan) :
    Session → Option GoError × Session :=
  traced (.UpdatePlan apiID plan) fun sent =>
    let body := marshalPlan plan
    match NewRequest rt "PUT" (apiURL c apiID ++ "/plans/" ++ plan.ID) (some body) with
    | .error err => (some err, sent)
    | .ok req =>
      let req := (req.SetContentType "application/json").SetBasicAuth c.Username c.Password
      match Do rt req sent with
      | (.error err, sent) => (some err, sent)
      | (.ok resp, sent) =>
        if resp.StatusCode ≠ 200 then
          (some (statusError resp.StatusCode), sent)
        else
          (none, sent)

/-- The method `(c *Client) DeletePlan(apiID, planID)`. -/
def Client.DeletePlan (c : Client) (rt : Remote) (apiID planID : String) :
    Session → Option GoError × Session :=
  traced (.DeletePlan apiID planID) fun sent =>
    match NewRequest rt "DELETE" (apiURL c apiID ++ "/plans/" ++ planID) none with
    | .error err => (some err, sent)
    | .ok req =>
      let req := req.SetBasicAuth c.Username c.Password
      match Do rt req sent with
      | (.error err, sent) => (some err, sent)
      | (.ok resp, sent) =>
        if resp.StatusCode ≠ 204 ∧ resp.StatusCode ≠ 200 then
          (some (statusError resp.StatusCode), sent)
        else
          (none, sent)

/-- The method `(c *Client) PublishPlan(apiID, planID)`. -/
def Client.PublishPlan (c : Client) (rt : Remote) (apiID planID : String) :
    Session → Option GoError × Session :=
  traced (.PublishPlan apiID planID) fun sent =>
    match NewRequest rt "POST" (apiURL c apiID ++ "/plans/" ++ planID ++ "/_publish") none with
    | .error err => (some err, sent)
    | .ok req =>
      let req := (req.SetContentType "application/json").SetBasicAuth c.Username c.Password
      match Do rt req sent with
      | (.error err, sent) => (some err, sent)
      | (.ok resp, sent) =>
        if resp.StatusCode ≠ 200 then
          (some (statusError resp.StatusCode), sent)
        else
          (none, sent)

/-! ## `gravitee/client_subscription.go` -/

/-- The method `(c *Client) CreateSubscription(apiID, subscription)`. -/
def Client.CreateSubscription (c : Client) (rt : Remote) (apiID : String)
    (subscription : Subscription) : Session → Except GoError Subscription × Session :=
  tracedResult (.CreateSubscription apiID subscription) fun sent =>
    let body := marshalSubscription subscription
    match NewRequest rt "POST" (apiURL c apiID ++ "/subscriptions") (some body) with
    | .error err => (.error err, sent)
    | .ok req =>
      let req := (req.SetContentType "application/json").SetBasicAuth c.Username c.Password
      match Do rt req sent with
      | (.error err, sent) => (.error err, sent)
      | (.ok resp, sent) =>
        if resp.StatusCode ≠ 201 ∧ resp.StatusCode ≠ 200 then
          (.error (statusError resp.StatusCode), sent)
        else
          match rt.decodeSubscription resp.Body with
          | .error err => (.error err, sent)
          | .ok createdSubscription => (.ok createdSubscription, sent)

/-- The method `(c *Client) GetSubscription(apiID, subscriptionID)`; `.ok none`
is the return `nil, nil`. -/
def Client.GetSubscription (c : Client) (rt : Remote) (apiID subscriptionID : String) :
    Session → Except GoError (Option Subscription) × Session :=
  tracedResult (.GetSubscription apiID subscriptionID) fun sent =>
    match NewRequest rt "GET" (apiURL c apiID ++ "/subscriptions/" ++ subscriptionID) none with
    | .error err => (.error err, sent)
    | .ok req =>
      let req := req.SetBasicAuth c.Username c.Password
      match Do rt req sent with
      | (.error err, sent) => (.error err, sent)
      | (.ok resp, sent) =>
        if resp.StatusCode = 404 then
          (.ok none, sent)
        else if resp.StatusCode ≠ 200 then
          (.error (statusError resp.StatusCode), sent)
        else
          match rt.decodeSubscription resp.Body with
          | .error err => (.error err, sent)
          | .ok subscription => (.ok (some subscription), sent)

/-- The method `(c *Client) UpdateSubscription(apiID, subscription)`. -/
def Client.UpdateSubscription (c : Client) (rt : Remote) (apiID : String)
    (subscription : Subscription) : Session → Option GoError × Session :=
  traced (.UpdateSubscription apiID subscription) fun sent =>
    let body := marshalUpdateSubscriptionBody subscription
    match NewRequest rt "PUT" (apiURL c apiID ++ "/subscriptions/" ++ subscription.ID)
        (some body) with
    | .error err => (some err, sent)
    | .ok req =>
      let req := (req.SetContentType "application/json").SetBasicAuth c.Username c.Password
      match Do rt req sent with
      | (.error err, sent) => (some err, sent)
      | (.ok resp, sent) =>
        if resp.StatusCode ≠ 200 then
          (some (statusError resp.StatusCode), sent)
        else
          (none, sent)

/-- The method `(c *Client) CloseSubscription(apiID, subscriptionID)`. -/
def Client.CloseSubscription (c : Client) (rt : Remote) (apiID subscriptionID : String) :
    Session → Option GoError × Session :=
  traced (.CloseSubscription apiID subscriptionID) fun sent =>
    match NewRequest rt "DELETE" (apiURL c apiID ++ "/subscriptions/" ++ subscriptionID)
        none with
    | .error err => (some err, sent)
    | .ok req =>
      let req := req.SetBasicAuth c.Username c.Password
      match Do rt req sent with
      | (.error err, sent) => (some err, sent)
      | (.ok resp, sent) =>
        if resp.StatusCode ≠ 204 ∧ resp.StatusCode ≠ 200 then
          (some (statusError resp.StatusCode), sent)
        else
          (none, sent)

/-- The method `(c *Client) TransferSubscription(apiID, subscriptionID, newPlanID)`. -/
def Client.TransferSubscription (c : Client) (rt : Remote)
    (apiID subscriptionID newPlanID : String) : Session → Option GoError × Session :=
  traced (.TransferSubscription apiID subscriptionID newPlanID) fun sent =>
    let body := marshalStringMap [("plan", newPlanID)]
    match NewRequest rt "POST"
        (apiURL c apiID ++ "/subscriptions/" ++ subscriptionID ++ "/_transfer") (some body) with
    | .error err => (some err, sent)
    | .ok req =>
      let req := (req.SetContentType "application/json").SetBasicAuth c.Username c.Password
      match Do rt req sent with
      | (.error err, sent) => (some err, sent)
      | (.ok resp, sent) =>
        if resp.StatusCode ≠ 200 then
          (some (statusError resp.StatusCode), sent)
        else
          (none, sent)

/-- The method `(c *Client) AcceptSubscription(apiID, subscriptionID, reason)`. -/
def Client.AcceptSubscription (c : Client) (rt : Remote)
    (apiID subscriptionID reason : String) : Session → Option GoError × Session :=
  traced (.AcceptSubscription apiID subscriptionID reason) fun sent =>
    let body := marshalStringMap [("reason", reason)]
    match NewRequest rt "POST"
        (apiURL c apiID ++ "/subscriptions/" ++ subscriptionID ++ "/_accept") (some body) with
    | .error err => (some err, sent)
    | .ok req =>
      let req := (req.SetContentType "application/json").SetBasicAuth c.Username c.Password
      match Do rt req sent with
      | (.error err, sent) => (some err, sent)
      | (.ok resp, sent) =>
        if resp.StatusCode ≠ 200 then
          (some (statusError resp.StatusCode), sent)
        else
          (none, sent)

/-! ## Diagnostics and resource data -/

/-- The severity of a `diag.Diagnostic`. -/
inductive Severity where
  | Error
  | Warning
deriving DecidableEq, Repr

/-- A `diag.Diagnostic`. -/
structure Diagnostic where
  Severity : Severity
  Summary : String
  Detail : String
deriving DecidableEq, Repr

/-- The slice `diag.Diagnostics`; `[]` is the nil that a successful pass returns. -/
abbrev Diagnostics := List Diagnostic

/-- The function `diag.FromErr(err)` for a non-nil error. -/
def diag.FromErr (err : GoError) : Diagnostics :=
  [{ Severity := Severity.Error, Summary := err, Detail := "" }]

/-- What a resource function leaves behind: the diagnostics it returns, the
resource data it wrote and the session. -/
structure Pass (δ : Type) where
  diags : Diagnostics
  d : δ
  session : Session

/-- The attributes of the `gravitee_plan` schema, as `d.Get` returns them. -/
structure PlanAttrs where
  api_id : String
  name : String
  description : String
  definition_version : String
  security_type : String
  mode : String
  characteristics : List String
  validation : String
  status : String
  auto_publish : Bool
deriving DecidableEq, Repr

/-- The `*schema.ResourceData` of a plan: the id, the prior state (what
`HasChange` compares with) and the current values (what `Get` reads and `Set`
writes). -/
structure PlanResourceData where
  id : String
  state : PlanAttrs
  cur : PlanAttrs
deriving DecidableEq, Repr

/-- The call `d.Id()`. -/
def PlanResourceData.Id (d : PlanResourceData) : String := d.id

/-- The call `d.SetId(v)`. -/
def PlanResourceData.SetId (d : PlanResourceData) (v : String) : PlanResourceData :=
  { d with id := v }

/-- A call `d.Set(key, value)`, as the update of the current values. -/
def PlanResourceData.Set (d : PlanResourceData) (write : PlanAttrs → PlanAttrs) :
    PlanResourceData :=
  { d with cur := write d.cur }

/-- The call `d.HasChange(key)`: the prior and the current value differ. -/
def PlanResourceData.HasChange (d : PlanResourceData) (key : String) : Bool :=
  if key = "api_id" then decide (d.state.api_id ≠ d.cur.api_id)
  else if key = "name" then decide (d.state.name ≠ d.cur.name)
  else if key = "description" then decide (d.state.description ≠ d.cur.description)
  else if key = "definition_version" then
    decide (d.state.definition_version ≠ d.cur.definition_version)
  else if key = "security_type" then decide (d.state.security_type ≠ d.cur.security_type)
  else if key = "mode" then decide (d.state.mode ≠ d.cur.mode)
  else if key = "characteristics" then
    decide (d.state.characteristics ≠ d.cur.characteristics)
  else if key = "validation" then decide (d.state.validation ≠ d.cur.validation)
  else if key = "status" then decide (d.state.status ≠ d.cur.status)
  else if key = "auto_publish" then decide (d.state.auto_publish ≠ d.cur.auto_publish)
  else false

/-- The call `d.GetOk("characteristics")`: the value, and whether it is not the
zero value (the empty list). -/
def PlanResourceData.GetOk_characteristics (d : PlanResourceData) : List String × Bool :=
  (d.cur.characteristics, decide (d.cur.characteristics ≠ []))

/-- The call `d.GetOk("validation")`: the value, and whether it is not `""`. -/
def PlanResourceData.GetOk_validation (d : PlanResourceData) : String × Bool :=
  (d.cur.validation, decide (d.cur.validation ≠ ""))

/-! ## `resource_gravitee_plan.go` -/

/-- The function `expandPlan(d)`. -/
def expandPlan (d : PlanResourceData) : Plan :=
  let securityType := d.cur.security_type
  let plan : Plan :=
    { ID := "", Name := d.cur.name, Description := d.cur.description,
      DefinitionVersion := d.cur.definition_version, Mode := d.cur.mode,
      Security := some { Type_ := securityType },
      Characteristics := [], Validation := "", Status := "" }
  let plan :=
    match d.GetOk_characteristics with
    | (v, true) => { plan with Characteristics := v }
    | (_, false) => plan
  let plan :=
    match d.GetOk_validation with
    | (v, true) => { plan with Validation := v }
    | (_, false) => plan
  plan

/-- The function `flattenPlan(d, plan)`. Its only error is that of
`d.Set("characteristics", ...)`, which a `[]string` never raises. -/
def flattenPlan (d : PlanResourceData) (plan : Plan) : PlanResourceData × Option GoError :=
  let d := d.Set fun a => { a with name := plan.Name }
  let d := d.Set fun a => { a with description := plan.Description }
  let d := d.Set fun a => { a with definition_version := plan.DefinitionVersion }
  let d := d.Set fun a => { a with mode := plan.Mode }
  let d :=
    match plan.Security with
    | some sec => d.Set fun a => { a with security_type := sec.Type_ }
    | none => d
  let d := d.Set fun a => { a with characteristics := plan.Characteristics }
  let d :=
    if plan.Validation ≠ "" then d.Set fun a => { a with validation := plan.Validation }
    else d
  let d := d.Set fun a => { a with status := plan.Status }
  (d, none)

/-- The function `resourceGraviteePlanRead`. -/
def resourceGraviteePlanRead (client : Client) (rt : Remote) (d : PlanResourceData)
    (s : Session) : Pass PlanResourceData :=
  let apiID := d.cur.api_id
  match client.GetPlan rt apiID d.Id s with
  | (.error err, s) => { diags := diag.FromErr err, d := d, session := s }
  | (.ok none, s) => { diags := [], d := d.SetId "", session := s }
  | (.ok (some plan), s) =>
    match flattenPlan d plan with
    | (d, some err) => { diags := diag.FromErr err, d := d, session := s }
    | (d, none) => { diags := [], d := d, session := s }

/-- The function `resourceGraviteePlanCreate`. -/
def resourceGraviteePlanCreate (client : Client) (rt : Remote) (d : PlanResourceData)
    (s : Session) : Pass PlanResourceData :=
  let apiID := d.cur.api_id
  let plan := expandPlan d
  match client.CreatePlan rt apiID plan s with
  | (.error err, s) => { diags := diag.FromErr err, d := d, session := s }
  | (.ok createdPlan, s) =>
    let d := d.SetId createdPlan.ID
    if d.cur.auto_publish then
      match client.PublishPlan rt apiID createdPlan.ID s with
      | (some err, s) => { diags := diag.FromErr err, d := d, session := s }
      | (none, s) =>
        let d := d.Set fun a => { a with status := "PUBLISHED" }
        resourceGraviteePlanRead client rt d s
    else
      resourceGraviteePlanRead client rt d s

/-- The function `resourceGraviteePlanUpdate`. The condition is Go's
`a && n || de || s || m || c`, in which `&&` binds tighter than `||`. -/
def resourceGraviteePlanUpdate (client : Client) (rt : Remote) (d : PlanResourceData)
    (s : Session) : Pass PlanResourceData :=
  let apiID := d.cur.api_id
  let plan := expandPlan d
  let plan := { plan with ID := d.Id }
  match client.UpdatePlan rt apiID plan s with
  | (some err, s) => { diags := diag.FromErr err, d := d, session := s }
  | (none, s) =>
    if (d.cur.auto_publish && d.HasChange "name") || d.HasChange "description" ||
        d.HasChange "security_type" || d.HasChange "mode" ||
        d.HasChange "characteristics" then
      match client.PublishPlan rt apiID plan.ID s with
      | (some err, s) => { diags := diag.FromErr err, d := d, session := s }
      | (none, s) =>
        let d := d.Set fun a => { a with status := "PUBLISHED" }
        resourceGraviteePlanRead client rt d s
    else
      resourceGraviteePlanRead client rt d s

/-- The function `resourceGraviteePlanDelete`. -/
def resourceGraviteePlanDelete (client : Client) (rt : Remote) (d : PlanResourceData)
    (s : Session) : Pass PlanResourceData :=
  let apiID := d.cur.api_id
  match client.DeletePlan rt apiID d.Id s with
  | (some err, s) => { diags := diag.FromErr err, d := d, session := s }
  | (none, s) => { diags := [], d := d.SetId "", session := s }

/-! ## Subscription resource data -/

/-- A `headers` block of the schema: both keys are required. -/
structure HeaderBlock where
  name : String
  value : String
deriving DecidableEq, Repr

/-- An `entrypoint_configuration` block of the schema. -/
structure EntrypointConfigurationBlock where
  callback_url : String
  headers : List HeaderBlock
deriving DecidableEq, Repr

/-- A `consumer_configuration` block of the schema. -/
structure ConsumerConfigurationBlock where
  entrypoint_id : String
  channel : String
  entrypoint_configuration : List EntrypointConfigurationBlock
deriving DecidableEq, Repr

/-- The `map[string]interface{}` of an entrypoint configuration: `none` is a
key that the map does not have. -/
structure EntrypointConfigurationMap where
  callback_url : String
  headers : Option (List HeaderBlock)
deriving DecidableEq, Repr

/-- The `map[string]interface{}` of a consumer configuration: `none` is a key
that the map does not have. -/
structure ConsumerConfigurationMap where
  entrypoint_id : String
  channel : Option String
  entrypoint_configuration : Option (List EntrypointConfigurationMap)
deriving DecidableEq, Repr

/-- The map that `d.Get` builds for an entrypoint block: every schema key is there. -/
def EntrypointConfigurationBlock.toMap (b : EntrypointConfigurationBlock) :
    EntrypointConfigurationMap :=
  { callback_url := b.callback_url, headers := some b.headers }

/-- The map that `d.Get` builds for a consumer block: every schema key is there. -/
def ConsumerConfigurationBlock.toMap (b : ConsumerConfigurationBlock) :
    ConsumerConfigurationMap :=
  { entrypoint_id := b.entrypoint_id, channel := some b.channel,
    entrypoint_configuration := some (b.entrypoint_configuration.map fun e => e.toMap) }

/-- The block that `d.Set` stores for an entrypoint map: a missing key reads
back as the zero value. -/
def EntrypointConfigurationMap.toBlock (m : EntrypointConfigurationMap) :
    EntrypointConfigurationBlock :=
  { callback_url := m.callback_url, headers := m.headers.getD [] }

/-- The block that `d.Set` stores for a consumer map: a missing key reads back
as the zero value. -/
def ConsumerConfigurationMap.toBlock (m : ConsumerConfigurationMap) :
    ConsumerConfigurationBlock :=
  { entrypoint_id := m.entrypoint_id, channel := m.channel.getD "",
    entrypoint_configuration := (m.entrypoint_configuration.getD []).map fun e => e.toBlock }

/-- The attributes of the `gravitee_subscription` schema, as `d.Get` returns
them; `metadata` lists the entries of the map in key order. -/
structure SubscriptionAttrs where
  api_id : String
  application_id : String
  plan_id : String
  status : String
  auto_validate : Bool
  consumer_configuration : List ConsumerConfigurationBlock
  metadata : List (String × String)
deriving DecidableEq, Repr

/-- The `*schema.ResourceData` of a subscription. -/
structure SubscriptionResourceData where
  id : String
  state : SubscriptionAttrs
  cur : SubscriptionAttrs
deriving DecidableEq, Repr

/-- The call `d.Id()`. -/
def SubscriptionResourceData.Id (d : SubscriptionResourceData) : String := d.id

/-- The call `d.SetId(v)`. -/
def SubscriptionResourceData.SetId (d : SubscriptionResourceData) (v : String) :
    SubscriptionResourceData :=
  { d with id := v }

/-- A call `d.Set(key, value)`, as the update of the current values. -/
def SubscriptionResourceData.Set (d : SubscriptionResourceData)
    (write : SubscriptionAttrs → SubscriptionAttrs) : SubscriptionResourceData :=
  { d with cur := write d.cur }

/-- The call `d.HasChange(key)`: the prior and the current value differ. -/
def SubscriptionResourceData.HasChange (d : SubscriptionResourceData) (key : String) : Bool :=
  if key = "api_id" then decide (d.state.api_id ≠ d.cur.api_id)
  else if key = "application_id" then decide (d.state.application_id ≠ d.cur.application_id)
  else if key = "plan_id" then decide (d.state.plan_id ≠ d.cur.plan_id)
  else if key = "status" then decide (d.state.status ≠ d.cur.status)
  else if key = "auto_validate" then decide (d.state.auto_validate ≠ d.cur.auto_validate)
  else if key = "consumer_configuration" then
    decide (d.state.consumer_configuration ≠ d.cur.consumer_configuration)
  else if key = "metadata" then decide (d.state.metadata ≠ d.cur.metadata)
  else false

/-- The call `d.GetOk("consumer_configuration")`: the list of maps, and whether
it is not empty. -/
def SubscriptionResourceData.GetOk_consumer_configuration (d : SubscriptionResourceData) :
    List ConsumerConfigurationMap × Bool :=
  (d.cur.consumer_configuration.map fun b => b.toMap,
   decide (d.cur.consumer_configuration ≠ []))

/-- The call `d.GetOk("metadata")`: the map, and whether it is not empty. -/
def SubscriptionResourceData.GetOk_metadata (d : SubscriptionResourceData) :
    List (String × String) × Bool :=
  (d.cur.metadata, decide (d.cur.metadata ≠ []))

/-! ## `resource_gravitee_subscription.go` -/

/-- The function `expandConsumerConfiguration(config)`. -/
def expandConsumerConfiguration (config : ConsumerConfigurationMap) : ConsumerConfiguration :=
  let consumerConfig : ConsumerConfiguration :=
    { EntrypointID := config.entrypoint_id, Channel := "", EntrypointConfiguration := none }
  let consumerConfig :=
    match config.channel with
    | some v => { consumerConfig with Channel := v }
    | none => consumerConfig
  let consumerConfig :=
    match config.entrypoint_configuration with
    | some (entrypointConfig :: _) =>
      let ec : EntrypointConfiguration :=
        { CallbackURL := entrypointConfig.callback_url, Headers := [] }
      let ec :=
        match entrypointConfig.headers with
        | some headersRaw =>
          { ec with Headers := headersRaw.map fun header =>
              { Name := header.name, Value := header.value } }
        | none => ec
      { consumerConfig with EntrypointConfiguration := some ec }
    | _ => consumerConfig
  consumerConfig

/-- The function `expandSubscription(d)`. -/
def expandSubscription (d : SubscriptionResourceData) : Subscription :=
  let subscription : Subscription :=
    { ID := "", PlanID := d.cur.plan_id, ApplicationID := d.cur.application_id,
      Status := "", ConsumerConfiguration := none, Metadata := none }
  let subscription :=
    match d.GetOk_consumer_configuration with
    | (config :: _, true) =>
      { subscription with ConsumerConfiguration := some (expandConsumerConfiguration config) }
    | _ => subscription
  let subscription :=
    match d.GetOk_metadata with
    | (metadataMap, true) => { subscription with Metadata := some metadataMap }
    | (_, false) => subscription
  subscription

/-- The function `flattenConsumerConfiguration(config)`. -/
def flattenConsumerConfiguration (config : ConsumerConfiguration) : ConsumerConfigurationMap :=
  let result : ConsumerConfigurationMap :=
    { entrypoint_id := config.EntrypointID, channel := none, entrypoint_configuration := none }
  let result :=
    if config.Channel ≠ "" then { result with channel := some config.Channel } else result
  let result :=
    match config.EntrypointConfiguration with
    | some ec =>
      let entrypointConfig : EntrypointConfigurationMap :=
        { callback_url := ec.CallbackURL, headers := none }
      let entrypointConfig :=
        if ec.Headers.length > 0 then
          { entrypointConfig with headers := some (ec.Headers.map fun header =>
              { name := header.Name, value := header.Value }) }
        else entrypointConfig
      { result with entrypoint_configuration := some [entrypointConfig] }
    | none => result
  result

/-- The function `flattenSubscription(d, subscription)`. Its errors are those
of the two `d.Set` calls on a list and on a map, which values of these types
never raise. -/
def flattenSubscription (d : SubscriptionResourceData) (subscription : Subscription) :
    SubscriptionResourceData × Option GoError :=
  let d := d.Set fun a => { a with plan_id := subscription.PlanID }
  let d := d.Set fun a => { a with application_id := subscription.ApplicationID }
  let d := d.Set fun a => { a with status := subscription.Status }
  let d :=
    match subscription.ConsumerConfiguration with
    | some cc =>
      let consumerConfig := flattenConsumerConfiguration cc
      d.Set fun a => { a with consumer_configuration := [consumerConfig.toBlock] }
    | none => d
  let d :=
    match subscription.Metadata with
    | some metadata => d.Set fun a => { a with metadata := metadata }
    | none => d
  (d, none)

/-- The function `resourceGraviteeSubscriptionRead`. -/
def resourceGraviteeSubscriptionRead (client : Client) (rt : Remote)
    (d : SubscriptionResourceData) (s : Session) : Pass SubscriptionResourceData :=
  let apiID := d.cur.api_id
  match client.GetSubscription rt apiID d.Id s with
  | (.error err, s) => { diags := diag.FromErr err, d := d, session := s }
  | (.ok none, s) => { diags := [], d := d.SetId "", session := s }
  | (.ok (some subscription), s) =>
    match flattenSubscription d subscription with
    | (d, some err) => { diags := diag.FromErr err, d := d, session := s }
    | (d, none) => { diags := [], d := d, session := s }

/-- The function `resourceGraviteeSubscriptionCreate`. -/
def resourceGraviteeSubscriptionCreate (client : Client) (rt : Remote)
    (d : SubscriptionResourceData) (s : Session) : Pass SubscriptionResourceData :=
  let apiID := d.cur.api_id
  let subscription := expandSubscription d
  match client.CreateSubscription rt apiID subscription s with
  | (.error err, s) => { diags := diag.FromErr err, d := d, session := s }
  | (.ok createdSubscription, s) =>
    let d := d.SetId createdSubscription.ID
    if d.cur.auto_validate && decide (createdSubscription.Status ≠ "ACCEPTED") then
      match client.AcceptSubscription rt apiID createdSubscription.ID
          "Auto-approved by Terraform" s with
      | (some err, s) => { diags := diag.FromErr err, d := d, session := s }
      | (none, s) => resourceGraviteeSubscriptionRead client rt d s
    else
      resourceGraviteeSubscriptionRead client rt d s

/-- The function `resourceGraviteeSubscriptionUpdate`. -/
def resourceGraviteeSubscriptionUpdate (client : Client) (rt : Remote)
    (d : SubscriptionResourceData) (s : Session) : Pass SubscriptionResourceData :=
  let apiID := d.cur.api_id
  let afterUpdate : Option GoError × Session :=
    if d.HasChange "consumer_configuration" || d.HasChange "metadata" then
      let subscription := expandSubscription d
      let subscription := { subscription with ID := d.Id }
      client.UpdateSubscription rt apiID subscription s
    else
      (none, s)
  match afterUpdate with
  | (some err, s) => { diags := diag.FromErr err, d := d, session := s }
  | (none, s) =>
    if d.HasChange "plan_id" then
      match client.TransferSubscription rt apiID d.Id d.cur.plan_id s with
      | (some err, s) => { diags := diag.FromErr err, d := d, session := s }
      | (none, s) =>
        if d.cur.auto_validate then
          match client.AcceptSubscription rt apiID d.Id
              "Auto-approved transfer by Terraform" s with
          | (some err, s) => { diags := diag.FromErr err, d := d, session := s }
          | (none, s) => resourceGraviteeSubscriptionRead client rt d s
        else
          resourceGraviteeSubscriptionRead client rt d s
    else
      resourceGraviteeSubscriptionRead client rt d s

/-- The function `resourceGraviteeSubscriptionDelete`. -/
def resourceGraviteeSubscriptionDelete (client : Client) (rt : Remote)
    (d : SubscriptionResourceData) (s : Session) : Pass SubscriptionResourceData :=
  let apiID := d.cur.api_id
  match client.CloseSubscription rt apiID d.Id s with
  | (some err, s) => { diags := diag.FromErr err, d := d, session := s }
  | (none, s) => { diags := [], d := d.SetId "", session := s }

/-! ## Reading the record of calls -/

/-- The calls that a pass added to the session `s` it started from. -/
def Pass.callsSince {δ : Type} (p : Pass δ) (s : Session) : List CallRecord :=
  p.session.calls.drop s.calls.length

/-- Whether a call is a `PublishPlan`. -/
def ClientCall.isPublishPlan : ClientCall → Bool
  | .PublishPlan _ _ => true
  | _ => false

/-- Whether a call is an `UpdatePlan`. -/
def ClientCall.isUpdatePlan : ClientCall → Bool
  | .UpdatePlan _ _ => true
  | _ => false

/-- Whether a call is an `UpdateSubscription`. -/
def ClientCall.isUpdateSubscription : ClientCall → Bool
  | .UpdateSubscription _ _ => true
  | _ => false

/-- Whether a call is a `TransferSubscription`. -/
def ClientCall.isTransferSubscription : ClientCall → Bool
  | .TransferSubscription _ _ _ => true
  | _ => false

/-- Whether a call is an `AcceptSubscription`. -/
def ClientCall.isAcceptSubscription : ClientCall → Bool
  | .AcceptSubscription _ _ _ => true
  | _ => false

/-- The re-publish triggering set of the plan machine: one of `name`,
`description`, `security_type`, `mode`, `characteristics` differs between the
prior state and the new values. -/
def PlanResourceData.triggeringSetDiffers (d : PlanResourceData) : Prop :=
  d.state.name ≠ d.cur.name ∨ d.state.description ≠ d.cur.description ∨
  d.state.security_type ≠ d.cur.security_type ∨ d.state.mode ≠ d.cur.mode ∨
  d.state.characteristics ≠ d.cur.characteristics

instance (d : PlanResourceData) : Decidable d.triggeringSetDiffers := by
  unfold PlanResourceData.triggeringSetDiffers
  infer_instance

/-- The request that `DeletePlan` sends. -/
def deletePlanRequest (c : Client) (apiID planID : String) : Request :=
  { Method := "DELETE", URL := apiURL c apiID ++ "/plans/" ++ planID, Body := none,
    ContentType := none, BasicAuth := some (c.Username, c.Password) }

/-- The request that `CloseSubscription` sends. -/
def closeSubscriptionRequest (c : Client) (apiID subscriptionID : String) : Request :=
  { Method := "DELETE", URL := apiURL c apiID ++ "/subscriptions/" ++ subscriptionID,
    Body := none, ContentType := none, BasicAuth := some (c.Username, c.Password) }

/-- The request that `GetPlan` sends. -/
def getPlanRequest (c : Client) (apiID planID : String) : Request :=
  { Method := "GET", URL := apiURL c apiID ++ "/plans/" ++ planID, Body := none,
    ContentType := none, BasicAuth := some (c.Username, c.Password) }

/-- The request that `GetSubscription` sends. -/
def getSubscriptionRequest (c : Client) (apiID subscriptionID : String) : Request :=
  { Method := "GET", URL := apiURL c apiID ++ "/subscriptions/" ++ subscriptionID,
    Body := none, ContentType := none, BasicAuth := some (c.Username, c.Password) }

/-- The outcome of a read (`GetPlan`, `GetSubscription`) as a function of the
error of `http.NewRequest`, the answer of the remote and the decoder of the
body: the case analysis that the two methods share. -/
def readOutcome {α : Type} (urlErr : Option GoError) (answer : Except GoError Response)
    (decode : String → Except GoError α) : Except GoError (Option α) :=
  match urlErr with
  | some err => .error err
  | none =>
    match answer with
    | .error err => .error err
    | .ok resp =>
      if resp.StatusCode = 404 then .ok none
      else if resp.StatusCode ≠ 200 then .error (statusError resp.StatusCode)
      else
        match decode resp.Body with
        | .error err => .error err
        | .ok v => .ok (some v)

/-- The schema's `MaxItems: 1` on an `entrypoint_configuration` list. -/
def ConsumerConfigurationMap.wellFormed (c : ConsumerConfigurationMap) : Prop :=
  (c.entrypoint_configuration.getD []).length ≤ 1

instance (c : ConsumerConfigurationMap) : Decidable c.wellFormed := by
  unfold ConsumerConfigurationMap.wellFormed
  infer_instance

/-- The schema's `MaxItems: 1` on `consumer_configuration` and on every
`entrypoint_configuration` in it. -/
def SubscriptionAttrs.wellFormed (a : SubscriptionAttrs) : Prop :=
  a.consumer_configuration.length ≤ 1 ∧
  ∀ b ∈ a.consumer_configuration, b.entrypoint_configuration.length ≤ 1

instance (a : SubscriptionAttrs) : Decidable a.wellFormed := by
  unfold SubscriptionAttrs.wellFormed
  infer_instance

/-- The member names of a JSON object, in the order written. -/
def Json.memberNames : Json → List String
  | .obj members => members.map fun m => m.1
  | _ => []

/-- A list of calls that stops at the first error, with the diagnostics that
go with it: either no call returned an error and there is no diagnostic, or
the last call is the only one that returned an error and the diagnostics are
`diag.FromErr` of that error. -/
def stopsAtFirstError (calls : List CallRecord) (diags : Diagnostics) : Prop :=
  ((∀ r ∈ calls, r.err = none) ∧ diags = []) ∨
  ∃ before call err, calls = before ++ [{ call := call, err := some err }] ∧
    (∀ r ∈ before, r.err = none) ∧ diags = diag.FromErr err

/-- The failure semantics of a pass started in session `s`: a call of the pass
that returned an error is its last call, and the pass returns exactly that
error as its diagnostics; and a pass that returns no diagnostic made no call
that returned an error. -/
def Pass.abortsOnFirstFailure {δ : Type} (p : Pass δ) (s : Session) : Prop :=
  (∀ before r after err, p.callsSince s = before ++ r :: after → r.err = some err →
    after = [] ∧ p.diags = diag.FromErr err) ∧
  (p.diags = [] → ∀ r ∈ p.callsSince s, r.err = none)

/-- The request that `CreatePlan` sends. -/
def createPlanRequest (c : Client) (apiID : String) (plan : Plan) : Request :=
  { Method := "POST", URL := apiURL c apiID ++ "/plans", Body := some (marshalPlan plan),
    ContentType := some "application/json", BasicAuth := some (c.Username, c.Password) }

/-- The request that `PublishPlan` sends. -/
def publishPlanRequest (c : Client) (apiID planID : String) : Request :=
  { Method := "POST", URL := apiURL c apiID ++ "/plans/" ++ planID ++ "/_publish",
    Body := none, ContentType := some "application/json",
    BasicAuth := some (c.Username, c.Password) }

/-- The request that `UpdatePlan` sends. -/
def updatePlanRequest (c : Client) (apiID : String) (plan : Plan) : Request :=
  { Method := "PUT", URL := apiURL c apiID ++ "/plans/" ++ plan.ID,
    Body := some (marshalPlan plan), ContentType := some "application/json",
    BasicAuth := some (c.Username, c.Password) }

/-- The request that `CreateSubscription` sends. -/
def createSubscriptionRequest (c : Client) (apiID : String) (subscription : Subscription) :
    Request :=
  { Method := "POST", URL := apiURL c apiID ++ "/subscriptions",
    Body := some (marshalSubscription subscription), ContentType := some "application/json",
    BasicAuth := some (c.Username, c.Password) }

/-- The request that `UpdateSubscription` sends. -/
def updateSubscriptionRequest (c : Client) (apiID : String) (subscription : Subscription) :
    Request :=
  { Method := "PUT", URL := apiURL c apiID ++ "/subscriptions/" ++ subscription.ID,
    Body := some (marshalUpdateSubscriptionBody subscription),
    ContentType := some "application/json", BasicAuth := some (c.Username, c.Password) }

/-- The request that `TransferSubscription` sends. -/
def transferSubscriptionRequest (c : Client) (apiID subscriptionID newPlanID : String) :
    Request :=
  { Method := "POST",
    URL := apiURL c apiID ++ "/subscriptions/" ++ subscriptionID ++ "/_transfer",
    Body := some (marshalStringMap [("plan", newPlanID)]),
    ContentType := some "application/json", BasicAuth := some (c.Username, c.Password) }

/-- The request that `AcceptSubscription` sends. -/
def acceptSubscriptionRequest (c : Client) (apiID subscriptionID reason : String) : Request :=
  { Method := "POST",
    URL := apiURL c apiID ++ "/subscriptions/" ++ subscriptionID ++ "/_accept",
    Body := some (marshalStringMap [("reason", reason)]),
    ContentType := some "application/json", BasicAuth := some (c.Username, c.Password) }

/-- The remote answers the request `req`, sent in session `s`, with `resp`:
`http.NewRequest` accepts the URL and the round trip returns `resp`. -/
def Remote.answers (rt : Remote) (s : Session) (req : Request) (resp : Response) : Prop :=
  rt.urlError req.URL = none ∧ rt.roundTrip s.sent req = .ok resp

/-- The calls and the diagnostics of the six passes (plan create, update,
delete; subscription create, update, delete) started in session `s`. -/
def passOutcomes (client : Client) (rt : Remote) (dp : PlanResourceData)
    (ds : SubscriptionResourceData) (s : Session) : List (List CallRecord × Diagnostics) :=
  [((resourceGraviteePlanCreate client rt dp s).callsSince s,
    (resourceGraviteePlanCreate client rt dp s).diags),
   ((resourceGraviteePlanUpdate client rt dp s).callsSince s,
    (resourceGraviteePlanUpdate client rt dp s).diags),
   ((resourceGraviteePlanDelete client rt dp s).callsSince s,
    (resourceGraviteePlanDelete client rt dp s).diags),
   ((resourceGraviteeSubscriptionCreate client rt ds s).callsSince s,
    (resourceGraviteeSubscriptionCreate client rt ds s).diags),
   ((resourceGraviteeSubscriptionUpdate client rt ds s).callsSince s,
    (resourceGraviteeSubscriptionUpdate client rt ds s).diags),
   ((resourceGraviteeSubscriptionDelete client rt ds s).callsSince s,
    (resourceGraviteeSubscriptionDelete client rt ds s).diags)]

/-- The failure of a pass started in session `s` is the bare error of the call
that failed: whenever a call of the pass returned `err`, the diagnostics of the
pass are the single diagnostic of severity `Error` whose summary is `err` and
whose detail is empty. -/
def Pass.failureIsCallError {δ : Type} (p : Pass δ) (s : Session) : Prop :=
  ∀ r ∈ p.callsSince s, ∀ err, r.err = some err →
    p.diags = [{ Severity := Severity.Error, Summary := err, Detail := "" }]

/-! ## Fixtures -/

/-- A client configuration. -/
def demoClient : Client :=
  { ManagementURL := "https://apim.example", Username := "admin", Password := "secret" }

/-- The plan that the demo remotes report. -/
def demoPlan : Plan :=
  { ID := "plan-1", Name := "Gold", Description := "", DefinitionVersion := "V4",
    Mode := "STANDARD", Security := some { Type_ := "KEY_LESS" }, Characteristics := [],
    Validation := "", Status := "PUBLISHED" }

/-- The subscription that the demo remotes report. -/
def demoSubscription : Subscription :=
  { ID := "sub-1", PlanID := "plan-1", ApplicationID := "app-1", Status := "PENDING",
    ConsumerConfiguration := none, Metadata := none }

/-- The body in which the demo remotes describe the plan "Gold" as published. -/
def demoPlanBody : String :=
  "\x7b\"id\":\"plan-1\",\"name\":\"Gold\",\"description\":\"\"," ++
  "\"definitionVersion\":\"V4\",\"mode\":\"STANDARD\"," ++
  "\"security\":\x7b\"type\":\"KEY_LESS\"\x7d,\"status\":\"PUBLISHED\"\x7d"

/-- The body in which `stagingRemote` describes the plan "Gold". -/
def stagingPlanBody : String :=
  "\x7b\"id\":\"plan-1\",\"name\":\"Gold\",\"description\":\"\"," ++
  "\"definitionVersion\":\"V4\",\"mode\":\"STANDARD\"," ++
  "\"security\":\x7b\"type\":\"KEY_LESS\"\x7d,\"status\":\"STAGING\"\x7d"

/-- The body in which the demo remotes describe the subscription "sub-1". -/
def demoSubscriptionBody : String :=
  "\x7b\"id\":\"sub-1\",\"planId\":\"plan-1\",\"applicationId\":\"app-1\"," ++
  "\"status\":\"PENDING\"\x7d"

/-- What `json.NewDecoder(resp.Body).Decode(&plan)` returns on the bodies that
the demo remotes send: the plan described by a plan body, the `id` and
`status` of a subscription body (its other members match no field of `Plan`),
and the error `EOF` on the empty body. -/
def demoDecodePlan (body : String) : Except GoError Plan :=
  if body = demoPlanBody then .ok demoPlan
  else if body = stagingPlanBody then .ok { demoPlan with Status := "STAGING" }
  else if body = demoSubscriptionBody then
    .ok { ID := "sub-1", Name := "", Description := "", DefinitionVersion := "", Mode := "",
          Security := none, Characteristics := [], Validation := "", Status := "PENDING" }
  else .error "EOF"

/-- What `json.NewDecoder(resp.Body).Decode(&subscription)` returns on the
bodies that the demo remotes send: the subscription described by a
subscription body, the `id` and `status` of a plan body (its other members
match no field of `Subscription`), and the error `EOF` on the empty body. -/
def demoDecodeSubscription (body : String) : Except GoError Subscription :=
  if body = demoSubscriptionBody then .ok demoSubscription
  else if body = demoPlanBody then
    .ok { ID := "plan-1", PlanID := "", ApplicationID := "", Status := "PUBLISHED",
          ConsumerConfiguration := none, Metadata := none }
  else if body = stagingPlanBody then
    .ok { ID := "plan-1", PlanID := "", ApplicationID := "", Status := "STAGING",
          ConsumerConfiguration := none, Metadata := none }
  else .error "EOF"

/-- Whether a URL of `demoClient` is under the subscriptions of "api-1". -/
def isSubscriptionURL (url : String) : Bool :=
  List.isPrefixOf
    "https://apim.example/management/v2/environments/DEFAULT/apis/api-1/subscriptions".data
    url.data

/-- A remote that answers every request with the given status. With 200 or
201 the body describes the resource of the URL, the subscription "sub-1" under
the subscriptions of "api-1" and the plan "Gold" elsewhere; with any other
status the body is empty. -/
def constRemote (code : Nat) : Remote :=
  { urlError := fun _ => none,
    roundTrip := fun _ req =>
      .ok { StatusCode := code,
            Body := if code = 200 ∨ code = 201 then
                      (if isSubscriptionURL req.URL then demoSubscriptionBody else demoPlanBody)
                    else "" },
    decodePlan := demoDecodePlan,
    decodeSubscription := demoDecodeSubscription }

/-- The attributes of the plan "Gold". -/
def goldAttrs : PlanAttrs :=
  { api_id := "api-1", name := "Gold", description := "", definition_version := "V4",
    security_type := "KEY_LESS", mode := "STANDARD", characteristics := [],
    validation := "", status := "PUBLISHED", auto_publish := true }

/-- An update of the plan "Gold" in which only `description` changed and
`auto_publish` is disabled. -/
def descriptionOnlyUpdate : PlanResourceData :=
  { id := "plan-1",
    state := { goldAttrs with auto_publish := false },
    cur := { goldAttrs with auto_publish := false, description := "Gold tier" } }

/-- An update of the plan "Gold" in which only `name` changed. -/
def renameUpdate : PlanResourceData :=
  { id := "plan-1", state := goldAttrs, cur := { goldAttrs with name := "Platinum" } }

/-- An update of the plan "Gold" in which only `validation` changed. -/
def validationOnlyUpdate : PlanResourceData :=
  { id := "plan-1", state := goldAttrs, cur := { goldAttrs with validation := "AUTO" } }

/-- The attributes of a plan that has no prior state. -/
def noPlanAttrs : PlanAttrs :=
  { api_id := "", name := "", description := "", definition_version := "",
    security_type := "", mode := "", characteristics := [], validation := "",
    status := "", auto_publish := false }

/-- The creation of the plan "Gold" with `auto_publish` enabled. -/
def goldCreate : PlanResourceData :=
  { id := "", state := noPlanAttrs, cur := { goldAttrs with status := "" } }

/-- A remote on which every request succeeds and which keeps reporting the
plan "Gold" as `STAGING`: it answers 201 with the plan to the creating `POST`,
200 with no body to the publishing `POST`, and 200 with the plan to a `GET`. -/
def stagingRemote : Remote :=
  { urlError := fun _ => none,
    roundTrip := fun _ req =>
      if req.Method = "GET" then .ok { StatusCode := 200, Body := stagingPlanBody }
      else if req.URL = "https://apim.example/management/v2/environments/DEFAULT/apis/api-1/plans"
      then .ok { StatusCode := 201, Body := stagingPlanBody }
      else .ok { StatusCode := 200, Body := "" },
    decodePlan := demoDecodePlan,
    decodeSubscription := demoDecodeSubscription }

/-- The attributes of the subscription of "app-1" to "plan-1". -/
def subAttrs : SubscriptionAttrs :=
  { api_id := "api-1", application_id := "app-1", plan_id := "plan-1", status := "",
    auto_validate := true, consumer_configuration := [], metadata := [] }

/-- The attributes of a subscription that has no prior state. -/
def noSubscriptionAttrs : SubscriptionAttrs :=
  { api_id := "", application_id := "", plan_id := "", status := "",
    auto_validate := false, consumer_configuration := [], metadata := [] }

/-- The creation of a subscription with no consumer configuration and
`auto_validate` enabled. -/
def subCreate : SubscriptionResourceData :=
  { id := "", state := noSubscriptionAttrs, cur := subAttrs }

/-- An update of a subscription in which both `plan_id` (A to B) and
`metadata` (`x` from 1 to 2) changed. -/
def planAndMetadataUpdate : SubscriptionResourceData :=
  { id := "sub-1",
    state := { subAttrs with plan_id := "plan-A", metadata := [("x", "1")] },
    cur := { subAttrs with plan_id := "plan-B", metadata := [("x", "2")] } }

/-- The stored plan "Gold", about to be deleted. -/
def goldDelete : PlanResourceData :=
  { id := "plan-1", state := goldAttrs, cur := goldAttrs }

/-- The stored subscription "sub-1", about to be deleted. -/
def subDelete : SubscriptionResourceData :=
  { id := "sub-1", state := { subAttrs with status := "ACCEPTED" },
    cur := { subAttrs with status := "ACCEPTED" } }

/-- A subscription with a consumer configuration that has a channel, a
callback URL and two headers, and with one metadata entry. -/
def webhookSubscription : SubscriptionResourceData :=
  { id := "sub-1",
    state := subAttrs,
    cur := { subAttrs with
      consumer_configuration :=
        [{ entrypoint_id := "webhook", channel := "orders",
           entrypoint_configuration :=
             [{ callback_url := "https://hooks.example/orders",
                headers := [{ name := "X-Env", value := "prod" },
                            { name := "X-Team", value := "core" }] }] }],
      metadata := [("owner", "core")] } }

/-- The subscription that the update of `webhookSubscription` passes to
`UpdateSubscription`. -/
def webhookUpdate : Subscription :=
  { expandSubscription webhookSubscription with ID := "sub-1" }

/-- A remote that rejects the publishing of "plan-1" with 500 and no body; it
answers every other `POST` with 201 and every other request with 200, with the
plan "Gold" as the body. -/
def publishRejectingRemote : Remote :=
  { urlError := fun _ => none,
    roundTrip := fun _ req =>
      if req.URL = "https://apim.example/management/v2/environments/DEFAULT/apis/api-1" ++
          "/plans/plan-1/_publish"
      then .ok { StatusCode := 500, Body := "" }
      else if req.Method = "POST" then .ok { StatusCode := 201, Body := demoPlanBody }
      else .ok { StatusCode := 200, Body := demoPlanBody },
    decodePlan := demoDecodePlan,
    decodeSubscription := demoDecodeSubscription }

/-! ## The calls of each pass -/

theorem traced_eq (call : ClientCall) (body : List Request → Option GoError × List Request)
    (s : Session) :
    (traced call body s).2.calls = s.calls ++ [{ call := call, err := (traced call body s).1 }] :=
  rfl

theorem tracedResult_eq {α : Type} (call : ClientCall)
    (body : List Request → Except GoError α × List Request) (s : Session) :
    (tracedResult call body s).2.calls =
      s.calls ++ [{ call := call, err := errOf (tracedResult call body s).1 }] :=
  rfl

theorem callsSince_append {δ : Type} (p : Pass δ) (s : Session) (l : List CallRecord)
    (h : p.session.calls = s.calls ++ l) : p.callsSince s = l := by
  simp [Pass.callsSince, h]

theorem CreatePlan_calls (c : Client) (rt : Remote) (a : String) (p : Plan) (s : Session) :
    (c.CreatePlan rt a p s).2.calls =
      s.calls ++ [{ call := .CreatePlan a p, err := errOf (c.CreatePlan rt a p s).1 }] :=
  rfl

theorem GetPlan_calls (c : Client) (rt : Remote) (a i : String) (s : Session) :
    (c.GetPlan rt a i s).2.calls =
      s.calls ++ [{ call := .GetPlan a i, err := errOf (c.GetPlan rt a i s).1 }] :=
  rfl

theorem UpdatePlan_calls (c : Client) (rt : Remote) (a : String) (p : Plan) (s : Session) :
    (c.UpdatePlan rt a p s).2.calls =
      s.calls ++ [{ call := .UpdatePlan a p, err := (c.UpdatePlan rt a p s).1 }] :=
  rfl

theorem DeletePlan_calls (c : Client) (rt : Remote) (a i : String) (s : Session) :
    (c.DeletePlan rt a i s).2.calls =
      s.calls ++ [{ call := .DeletePlan a i, err := (c.DeletePlan rt a i s).1 }] :=
  rfl

theorem PublishPlan_calls (c : Client) (rt : Remote) (a i : String) (s : Session) :
    (c.PublishPlan rt a i s).2.calls =
      s.calls ++ [{ call := .PublishPlan a i, err := (c.PublishPlan rt a i s).1 }] :=
  rfl

theorem CreateSubscription_calls (c : Client) (rt : Remote) (a : String) (p : Subscription)
    (s : Session) :
    (c.CreateSubscription rt a p s).2.calls =
      s.calls ++ [{ call := .CreateSubscription a p,
                    err := errOf (c.CreateSubscription rt a p s).1 }] :=
  rfl

theorem GetSubscription_calls (c : Client) (rt : Remote) (a i : String) (s : Session) :
    (c.GetSubscription rt a i s).2.calls =
      s.calls ++ [{ call := .GetSubscription a i, err := errOf (c.GetSubscription rt a i s).1 }] :=
  rfl

theorem UpdateSubscription_calls (c : Client) (rt : Remote) (a : String) (p : Subscription)
    (s : Session) :
    (c.UpdateSubscription rt a p s).2.calls =
      s.calls ++ [{ call := .UpdateSubscription a p,
                    err := (c.UpdateSubscription rt a p s).1 }] :=
  rfl

theorem CloseSubscription_calls (c : Client) (rt : Remote) (a i : String) (s : Session) :
    (c.CloseSubscription rt a i s).2.calls =
      s.calls ++ [{ call := .CloseSubscription a i, err := (c.CloseSubscription rt a i s).1 }] :=
  rfl

theorem TransferSubscription_calls (c : Client) (rt : Remote) (a i n : String) (s : Session) :
    (c.TransferSubscription rt a i n s).2.calls =
      s.calls ++ [{ call := .TransferSubscription a i n,
                    err := (c.TransferSubscription rt a i n s).1 }] :=
  rfl

theorem AcceptSubscription_calls (c : Client) (rt : Remote) (a i n : String) (s : Session) :
    (c.AcceptSubscription rt a i n s).2.calls =
      s.calls ++ [{ call := .AcceptSubscription a i n,
                    err := (c.AcceptSubscription rt a i n s).1 }] :=
  rfl

/-- The read-back adds exactly one call, `GetPlan` with the stored id. -/
theorem planRead_calls (client : Client) (rt : Remote) (d : PlanResourceData) (s : Session) :
    (resourceGraviteePlanRead client rt d s).session.calls =
      s.calls ++ [{ call := .GetPlan d.cur.api_id d.id,
                    err := errOf (client.GetPlan rt d.cur.api_id d.id s).1 }] := by
  have h := GetPlan_calls client rt d.cur.api_id d.id s
  unfold resourceGraviteePlanRead
  simp only [PlanResourceData.Id]
  split
  · next err s1 heq => rw [heq] at h ⊢; exact h
  · next s1 heq => rw [heq] at h ⊢; exact h
  · next plan s1 heq =>
    rw [heq] at h ⊢
    simp only [flattenPlan]
    exact h

/-- The condition under which `resourceGraviteePlanUpdate` publishes. -/
theorem planUpdate_calls (client : Client) (rt : Remote) (d : PlanResourceData) (s : Session) :
    (resourceGraviteePlanUpdate client rt d s).session.calls =
      s.calls ++
      (let apiID := d.cur.api_id
       let plan := { expandPlan d with ID := d.id }
       let r1 := client.UpdatePlan rt apiID plan s
       { call := .UpdatePlan apiID plan, err := r1.1 } ::
        match r1.1 with
        | some _ => []
        | none =>
          if (d.cur.auto_publish && d.HasChange "name") || d.HasChange "description" ||
              d.HasChange "security_type" || d.HasChange "mode" ||
              d.HasChange "characteristics" then
            let r2 := client.PublishPlan rt apiID d.id r1.2
            { call := .PublishPlan apiID d.id, err := r2.1 } ::
              match r2.1 with
              | some _ => []
              | none =>
                [{ call := .GetPlan apiID d.id,
                   err := errOf (client.GetPlan rt apiID d.id r2.2).1 }]
          else
            [{ call := .GetPlan apiID d.id,
               err := errOf (client.GetPlan rt apiID d.id r1.2).1 }]) := by
  have h1 := UpdatePlan_calls client rt d.cur.api_id { expandPlan d with ID := d.id } s
  have h2 := PublishPlan_calls client rt d.cur.api_id d.id
    (client.UpdatePlan rt d.cur.api_id { expandPlan d with ID := d.id } s).2
  unfold resourceGraviteePlanUpdate
  simp only [PlanResourceData.Id]
  rcases hu : client.UpdatePlan rt d.cur.api_id { expandPlan d with ID := d.id } s with ⟨e1, s1⟩
  rw [hu] at h1 h2
  simp only at h1 h2
  cases e1 with
  | some err => simp [h1]
  | none =>
    simp only
    split
    · rcases hp : client.PublishPlan rt d.cur.api_id d.id s1 with ⟨e2, s2⟩
      rw [hp] at h2
      simp only at h2
      cases e2 with
      | some err => simp [h2, h1]
      | none =>
        simp only [planRead_calls, h2, h1, PlanResourceData.Set]
        simp
    · simp only [planRead_calls, h1]
      simp

/-- The calls of `resourceGraviteePlanCreate`, in order. -/
theorem planCreate_calls (client : Client) (rt : Remote) (d : PlanResourceData) (s : Session) :
    (resourceGraviteePlanCreate client rt d s).session.calls =
      s.calls ++
      (let apiID := d.cur.api_id
       let plan := expandPlan d
       let r1 := client.CreatePlan rt apiID plan s
       { call := .CreatePlan apiID plan, err := errOf r1.1 } ::
        match r1.1 with
        | .error _ => []
        | .ok createdPlan =>
          if d.cur.auto_publish then
            let r2 := client.PublishPlan rt apiID createdPlan.ID r1.2
            { call := .PublishPlan apiID createdPlan.ID, err := r2.1 } ::
              match r2.1 with
              | some _ => []
              | none =>
                [{ call := .GetPlan apiID createdPlan.ID,
                   err := errOf (client.GetPlan rt apiID createdPlan.ID r2.2).1 }]
          else
            [{ call := .GetPlan apiID createdPlan.ID,
               err := errOf (client.GetPlan rt apiID createdPlan.ID r1.2).1 }]) := by
  have h1 := CreatePlan_calls client rt d.cur.api_id (expandPlan d) s
  unfold resourceGraviteePlanCreate
  simp only [PlanResourceData.SetId]
  rcases hc : client.CreatePlan rt d.cur.api_id (expandPlan d) s with ⟨r1, s1⟩
  rw [hc] at h1
  simp only at h1
  cases r1 with
  | error err => simp [h1, errOf]
  | ok createdPlan =>
    have h2 := PublishPlan_calls client rt d.cur.api_id createdPlan.ID s1
    simp only
    split
    · rcases hp : client.PublishPlan rt d.cur.api_id createdPlan.ID s1 with ⟨e2, s2⟩
      rw [hp] at h2
      simp only at h2
      cases e2 with
      | some err => simp [h2, h1]
      | none =>
        simp only [planRead_calls, h2, h1, PlanResourceData.Set]
        simp
    · simp only [planRead_calls, h1]
      simp

/-- The calls of `resourceGraviteePlanDelete`: one `DeletePlan`. -/
theorem planDelete_calls (client : Client) (rt : Remote) (d : PlanResourceData) (s : Session) :
    (resourceGraviteePlanDelete client rt d s).session.calls =
      s.calls ++ [{ call := .DeletePlan d.cur.api_id d.id,
                    err := (client.DeletePlan rt d.cur.api_id d.id s).1 }] := by
  have h := DeletePlan_calls client rt d.cur.api_id d.id s
  unfold resourceGraviteePlanDelete
  simp only [PlanResourceData.Id]
  split
  · next err s1 heq => rw [heq] at h ⊢; exact h
  · next s1 heq => rw [heq] at h ⊢; exact h

/-- The read-back adds exactly one call, `GetSubscription` with the stored id. -/
theorem subscriptionRead_calls (client : Client) (rt : Remote) (d : SubscriptionResourceData)
    (s : Session) :
    (resourceGraviteeSubscriptionRead client rt d s).session.calls =
      s.calls ++ [{ call := .GetSubscription d.cur.api_id d.id,
                    err := errOf (client.GetSubscription rt d.cur.api_id d.id s).1 }] := by
  have h := GetSubscription_calls client rt d.cur.api_id d.id s
  unfold resourceGraviteeSubscriptionRead
  simp only [SubscriptionResourceData.Id]
  split
  · next err s1 heq => rw [heq] at h ⊢; exact h
  · next s1 heq => rw [heq] at h ⊢; exact h
  · next sub s1 heq =>
    rw [heq] at h ⊢
    simp only [flattenSubscription]
    exact h

/-- The calls of `resourceGraviteeSubscriptionCreate`, in order. -/
theorem subscriptionCreate_calls (client : Client) (rt : Remote)
    (d : SubscriptionResourceData) (s : Session) :
    (resourceGraviteeSubscriptionCreate client rt d s).session.calls =
      s.calls ++
      (let apiID := d.cur.api_id
       let subscription := expandSubscription d
       let r1 := client.CreateSubscription rt apiID subscription s
       { call := .CreateSubscription apiID subscription, err := errOf r1.1 } ::
        match r1.1 with
        | .error _ => []
        | .ok created =>
          if d.cur.auto_validate && decide (created.Status ≠ "ACCEPTED") then
            let r2 := client.AcceptSubscription rt apiID created.ID
              "Auto-approved by Terraform" r1.2
            { call := .AcceptSubscription apiID created.ID "Auto-approved by Terraform",
              err := r2.1 } ::
              match r2.1 with
              | some _ => []
              | none =>
                [{ call := .GetSubscription apiID created.ID,
                   err := errOf (client.GetSubscription rt apiID created.ID r2.2).1 }]
          else
            [{ call := .GetSubscription apiID created.ID,
               err := errOf (client.GetSubscription rt apiID created.ID r1.2).1 }]) := by
  have h1 := CreateSubscription_calls client rt d.cur.api_id (expandSubscription d) s
  unfold resourceGraviteeSubscriptionCreate
  simp only [SubscriptionResourceData.SetId]
  rcases hc : client.CreateSubscription rt d.cur.api_id (expandSubscription d) s with ⟨r1, s1⟩
  rw [hc] at h1
  simp only at h1
  cases r1 with
  | error err => simp [h1, errOf]
  | ok created =>
    have h2 := AcceptSubscription_calls client rt d.cur.api_id created.ID
      "Auto-approved by Terraform" s1
    simp only
    split
    · rcases hp : client.AcceptSubscription rt d.cur.api_id created.ID
        "Auto-approved by Terraform" s1 with ⟨e2, s2⟩
      rw [hp] at h2
      simp only at h2
      cases e2 with
      | some err => simp [h2, h1]
      | none =>
        simp only [subscriptionRead_calls, h2, h1]
        simp
    · simp only [subscriptionRead_calls, h1]
      simp

/-- The calls of `resourceGraviteeSubscriptionDelete`: one `CloseSubscription`. -/
theorem subscriptionDelete_calls (client : Client) (rt : Remote)
    (d : SubscriptionResourceData) (s : Session) :
    (resourceGraviteeSubscriptionDelete client rt d s).session.calls =
      s.calls ++ [{ call := .CloseSubscription d.cur.api_id d.id,
                    err := (client.CloseSubscription rt d.cur.api_id d.id s).1 }] := by
  have h := CloseSubscription_calls client rt d.cur.api_id d.id s
  unfold resourceGraviteeSubscriptionDelete
  simp only [SubscriptionResourceData.Id]
  split
  · next err s1 heq => rw [heq] at h ⊢; exact h
  · next s1 heq => rw [heq] at h ⊢; exact h

/-- The calls of `resourceGraviteeSubscriptionUpdate`, in order. -/
theorem subscriptionUpdate_calls (client : Client) (rt : Remote)
    (d : SubscriptionResourceData) (s : Session) :
    (resourceGraviteeSubscriptionUpdate client rt d s).session.calls =
      s.calls ++
      (let apiID := d.cur.api_id
       let subscription := { expandSubscription d with ID := d.id }
       let changed := d.HasChange "consumer_configuration" || d.HasChange "metadata"
       let r1 := if changed then client.UpdateSubscription rt apiID subscription s else (none, s)
       (if changed then [{ call := .UpdateSubscription apiID subscription, err := r1.1 }]
        else []) ++
        match r1.1 with
        | some _ => []
        | none =>
          if d.HasChange "plan_id" then
            let r2 := client.TransferSubscription rt apiID d.id d.cur.plan_id r1.2
            { call := .TransferSubscription apiID d.id d.cur.plan_id, err := r2.1 } ::
              match r2.1 with
              | some _ => []
              | none =>
                if d.cur.auto_validate then
                  let r3 := client.AcceptSubscription rt apiID d.id
                    "Auto-approved transfer by Terraform" r2.2
                  { call := .AcceptSubscription apiID d.id
                      "Auto-approved transfer by Terraform", err := r3.1 } ::
                    match r3.1 with
                    | some _ => []
                    | none =>
                      [{ call := .GetSubscription apiID d.id,
                         err := errOf (client.GetSubscription rt apiID d.id r3.2).1 }]
                else
                  [{ call := .GetSubscription apiID d.id,
                     err := errOf (client.GetSubscription rt apiID d.id r2.2).1 }]
          else
            [{ call := .GetSubscription apiID d.id,
               err := errOf (client.GetSubscription rt apiID d.id r1.2).1 }]) := by
  unfold resourceGraviteeSubscriptionUpdate
  simp only [SubscriptionResourceData.Id]
  have key : ∀ (e1 : Option GoError) (s1 : Session),
      (match (e1, s1) with
        | (some err, s) =>
          ({ diags := diag.FromErr err, d := d, session := s } : Pass SubscriptionResourceData)
        | (none, s) =>
          if d.HasChange "plan_id" then
            match client.TransferSubscription rt d.cur.api_id d.id d.cur.plan_id s with
            | (some err, s) => { diags := diag.FromErr err, d := d, session := s }
            | (none, s) =>
              if d.cur.auto_validate then
                match client.AcceptSubscription rt d.cur.api_id d.id
                    "Auto-approved transfer by Terraform" s with
                | (some err, s) => { diags := diag.FromErr err, d := d, session := s }
                | (none, s) => resourceGraviteeSubscriptionRead client rt d s
              else
                resourceGraviteeSubscriptionRead client rt d s
          else
            resourceGraviteeSubscriptionRead client rt d s).session.calls =
      s1.calls ++
        match e1 with
        | some _ => []
        | none =>
          if d.HasChange "plan_id" then
            let r2 := client.TransferSubscription rt d.cur.api_id d.id d.cur.plan_id s1
            { call := .TransferSubscription d.cur.api_id d.id d.cur.plan_id, err := r2.1 } ::
              match r2.1 with
              | some _ => []
              | none =>
                if d.cur.auto_validate then
                  let r3 := client.AcceptSubscription rt d.cur.api_id d.id
                    "Auto-approved transfer by Terraform" r2.2
                  { call := .AcceptSubscription d.cur.api_id d.id
                      "Auto-approved transfer by Terraform", err := r3.1 } ::
                    match r3.1 with
                    | some _ => []
                    | none =>
                      [{ call := .GetSubscription d.cur.api_id d.id,
                         err := errOf (client.GetSubscription rt d.cur.api_id d.id r3.2).1 }]
                else
                  [{ call := .GetSubscription d.cur.api_id d.id,
                     err := errOf (client.GetSubscription rt d.cur.api_id d.id r2.2).1 }]
          else
            [{ call := .GetSubscription d.cur.api_id d.id,
               err := errOf (client.GetSubscription rt d.cur.api_id d.id s1).1 }] := by
    intro e1 s1
    cases e1 with
    | some err => simp
    | none =>
      simp only
      split
      · have h2 := TransferSubscription_calls client rt d.cur.api_id d.id d.cur.plan_id s1
        rcases ht : client.TransferSubscription rt d.cur.api_id d.id d.cur.plan_id s1
          with ⟨e2, s2⟩
        rw [ht] at h2
        simp only at h2
        cases e2 with
        | some err => simp [h2]
        | none =>
          simp only
          split
          · have h3 := AcceptSubscription_calls client rt d.cur.api_id d.id
              "Auto-approved transfer by Terraform" s2
            rcases ha : client.AcceptSubscription rt d.cur.api_id d.id
              "Auto-approved transfer by Terraform" s2 with ⟨e3, s3⟩
            rw [ha] at h3
            simp only at h3
            cases e3 with
            | some err => simp [h3, h2]
            | none =>
              simp only [subscriptionRead_calls, h3, h2]
              simp
          · simp only [subscriptionRead_calls, h2]
            simp
      · simp only [subscriptionRead_calls]
  by_cases hch : (d.HasChange "consumer_configuration" || d.HasChange "metadata") = true
  · simp only [hch, if_true]
    have h1 := UpdateSubscription_calls client rt d.cur.api_id
      { expandSubscription d with ID := d.id } s
    rcases hu : client.UpdateSubscription rt d.cur.api_id
      { expandSubscription d with ID := d.id } s with ⟨e1, s1⟩
    rw [hu] at h1
    simp only at h1
    rw [key e1 s1, h1]
    simp
  · simp only [hch, Bool.false_eq_true, if_false]
    rw [key none s]
    simp

/-! ## The plan machine -/

theorem PlanResourceData.HasChange_name (d : PlanResourceData) :
    d.HasChange "name" = decide (d.state.name ≠ d.cur.name) := rfl

theorem PlanResourceData.HasChange_description (d : PlanResourceData) :
    d.HasChange "description" = decide (d.state.description ≠ d.cur.description) := rfl

theorem PlanResourceData.HasChange_security_type (d : PlanResourceData) :
    d.HasChange "security_type" = decide (d.state.security_type ≠ d.cur.security_type) := rfl

theorem PlanResourceData.HasChange_mode (d : PlanResourceData) :
    d.HasChange "mode" = decide (d.state.mode ≠ d.cur.mode) := rfl

theorem PlanResourceData.HasChange_characteristics (d : PlanResourceData) :
    d.HasChange "characteristics" =
      decide (d.state.characteristics ≠ d.cur.characteristics) := rfl

/-- The condition of `resourceGraviteePlanUpdate`, read as a proposition. -/
theorem planUpdate_condition (d : PlanResourceData) :
    ((d.cur.auto_publish && d.HasChange "name") || d.HasChange "description" ||
        d.HasChange "security_type" || d.HasChange "mode" ||
        d.HasChange "characteristics") = true ↔
      ((d.cur.auto_publish = true ∧ d.state.name ≠ d.cur.name) ∨
        d.state.description ≠ d.cur.description ∨
        d.state.security_type ≠ d.cur.security_type ∨ d.state.mode ≠ d.cur.mode ∨
        d.state.characteristics ≠ d.cur.characteristics) := by
  simp only [PlanResourceData.HasChange_name, PlanResourceData.HasChange_description,
    PlanResourceData.HasChange_security_type, PlanResourceData.HasChange_mode,
    PlanResourceData.HasChange_characteristics, Bool.or_eq_true, Bool.and_eq_true,
    decide_eq_true_eq]
  tauto

/-- C1 (code bug): in the update pass of `descriptionOnlyUpdate`, where
`auto_publish` is disabled and only `description` changed, against a remote that
answers 200 to every request, `PublishPlan` is called after `UpdatePlan`. -/
theorem planUpdate_publishes_with_auto_publish_disabled :
    descriptionOnlyUpdate.cur.auto_publish = false ∧
    ((resourceGraviteePlanUpdate demoClient (constRemote 200) descriptionOnlyUpdate
        Session.empty).callsSince Session.empty).map (fun r => r.call) =
      [ClientCall.UpdatePlan "api-1" { expandPlan descriptionOnlyUpdate with ID := "plan-1" },
       ClientCall.PublishPlan "api-1" "plan-1",
       ClientCall.GetPlan "api-1" "plan-1"] := by
  decide

/-- C2: in an update pass with `auto_publish` enabled whose `UpdatePlan` call
succeeded, `PublishPlan` is called if and only if one of `name`, `description`,
`security_type`, `mode`, `characteristics` differs from the prior state; when
it is called, it is the second call of the pass, right after `UpdatePlan`, it
carries the stored plan id, and it is the only `PublishPlan` of the pass. -/
theorem planUpdate_publish_iff_triggered (client : Client) (rt : Remote)
    (d : PlanResourceData) (s : Session)
    (hauto : d.cur.auto_publish = true)
    (hupd : (client.UpdatePlan rt d.cur.api_id { expandPlan d with ID := d.id } s).1 = none) :
    ((∃ r ∈ (resourceGraviteePlanUpdate client rt d s).callsSince s,
        r.call.isPublishPlan = true) ↔ d.triggeringSetDiffers) ∧
    (d.triggeringSetDiffers →
      (((resourceGraviteePlanUpdate client rt d s).callsSince s).map fun r => r.call).take 2 =
        [ClientCall.UpdatePlan d.cur.api_id { expandPlan d with ID := d.id },
         ClientCall.PublishPlan d.cur.api_id d.id] ∧
      (((resourceGraviteePlanUpdate client rt d s).callsSince s).filter
        fun r => r.call.isPublishPlan).length = 1) := by
  rw [callsSince_append _ _ _ (planUpdate_calls client rt d s)]
  have hc := (planUpdate_condition d).trans
    (show _ ↔ d.triggeringSetDiffers by
      unfold PlanResourceData.triggeringSetDiffers
      simp only [hauto, true_and])
  simp only [hupd]
  by_cases ht : d.triggeringSetDiffers
  · have hcond := hc.mpr ht
    rw [if_pos hcond]
    cases hp : (client.PublishPlan rt d.cur.api_id d.id
        (client.UpdatePlan rt d.cur.api_id { expandPlan d with ID := d.id } s).2).1 <;>
      simp [ht, ClientCall.isPublishPlan, hp]
  · have hcond : ¬ _ := fun h => ht (hc.mp h)
    rw [if_neg hcond]
    simp [ht, ClientCall.isPublishPlan]

/-- Witness of C2: the update pass of `renameUpdate` against a remote that
answers 200 to every request. -/
theorem planUpdate_publish_iff_triggered_witness :
    ((∃ r ∈ (resourceGraviteePlanUpdate demoClient (constRemote 200) renameUpdate
          Session.empty).callsSince Session.empty,
        r.call.isPublishPlan = true) ↔ renameUpdate.triggeringSetDiffers) ∧
    (renameUpdate.triggeringSetDiffers →
      (((resourceGraviteePlanUpdate demoClient (constRemote 200) renameUpdate
          Session.empty).callsSince Session.empty).map fun r => r.call).take 2 =
        [ClientCall.UpdatePlan renameUpdate.cur.api_id
           { expandPlan renameUpdate with ID := renameUpdate.id },
         ClientCall.PublishPlan renameUpdate.cur.api_id renameUpdate.id] ∧
      (((resourceGraviteePlanUpdate demoClient (constRemote 200) renameUpdate
          Session.empty).callsSince Session.empty).filter
        fun r => r.call.isPublishPlan).length = 1) :=
  planUpdate_publish_iff_triggered demoClient (constRemote 200) renameUpdate Session.empty
    (by decide) (by decide)

/-- C3: in an update pass in which none of `name`, `description`,
`security_type`, `mode`, `characteristics` changed, `UpdatePlan` is called (it
is the first call, with the expanded plan and the stored id) and `PublishPlan`
is not called, whatever `auto_publish` is. -/
theorem planUpdate_untriggered_never_publishes (client : Client) (rt : Remote)
    (d : PlanResourceData) (s : Session)
    (hsame : ¬ d.triggeringSetDiffers) :
    (((resourceGraviteePlanUpdate client rt d s).callsSince s).map fun r => r.call).head? =
      some (ClientCall.UpdatePlan d.cur.api_id { expandPlan d with ID := d.id }) ∧
    ∀ r ∈ (resourceGraviteePlanUpdate client rt d s).callsSince s,
      r.call.isPublishPlan = false := by
  rw [callsSince_append _ _ _ (planUpdate_calls client rt d s)]
  have hc := planUpdate_condition d
  have hcond : ¬ _ := fun h => hsame (by
    rcases hc.mp h with h1 | h1
    · exact Or.inl h1.2
    · exact Or.inr h1)
  refine ⟨by simp, ?_⟩
  simp only
  rw [if_neg hcond]
  cases hu : (client.UpdatePlan rt d.cur.api_id { expandPlan d with ID := d.id } s).1 <;>
    simp [ClientCall.isPublishPlan]

/-- Witness of C3: the update pass of `validationOnlyUpdate`, in which only
`validation` changed, against a remote that answers 200 to every request. -/
theorem planUpdate_untriggered_never_publishes_witness :
    (((resourceGraviteePlanUpdate demoClient (constRemote 200) validationOnlyUpdate
        Session.empty).callsSince Session.empty).map fun r => r.call).head? =
      some (ClientCall.UpdatePlan validationOnlyUpdate.cur.api_id
        { expandPlan validationOnlyUpdate with ID := validationOnlyUpdate.id }) ∧
    ∀ r ∈ (resourceGraviteePlanUpdate demoClient (constRemote 200) validationOnlyUpdate
        Session.empty).callsSince Session.empty,
      r.call.isPublishPlan = false :=
  planUpdate_untriggered_never_publishes demoClient (constRemote 200) validationOnlyUpdate
    Session.empty (by decide)

/-- C4: in a create pass, `CreatePlan` with the expanded plan is the first
call. When it succeeds with `createdPlan`: if `auto_publish` is enabled the
second call is `PublishPlan` with `createdPlan.ID` and it is the only
`PublishPlan` of the pass; if `auto_publish` is disabled there is no
`PublishPlan`. When `CreatePlan` fails it is the only call of the pass. -/
theorem planCreate_publish_iff_auto_publish (client : Client) (rt : Remote)
    (d : PlanResourceData) (s : Session) :
    (((resourceGraviteePlanCreate client rt d s).callsSince s).map fun r => r.call).head? =
      some (ClientCall.CreatePlan d.cur.api_id (expandPlan d)) ∧
    match (client.CreatePlan rt d.cur.api_id (expandPlan d) s).1 with
    | .ok createdPlan =>
      (d.cur.auto_publish = true →
        (((resourceGraviteePlanCreate client rt d s).callsSince s).map fun r => r.call).take 2 =
          [ClientCall.CreatePlan d.cur.api_id (expandPlan d),
           ClientCall.PublishPlan d.cur.api_id createdPlan.ID] ∧
        (((resourceGraviteePlanCreate client rt d s).callsSince s).filter
          fun r => r.call.isPublishPlan).length = 1) ∧
      (d.cur.auto_publish = false →
        ∀ r ∈ (resourceGraviteePlanCreate client rt d s).callsSince s,
          r.call.isPublishPlan = false)
    | .error err =>
      (resourceGraviteePlanCreate client rt d s).callsSince s =
        [{ call := ClientCall.CreatePlan d.cur.api_id (expandPlan d), err := some err }] := by
  rw [callsSince_append _ _ _ (planCreate_calls client rt d s)]
  refine ⟨by simp, ?_⟩
  cases hc : (client.CreatePlan rt d.cur.api_id (expandPlan d) s).1 with
  | error err => simp [errOf, hc]
  | ok createdPlan =>
    simp only [hc]
    constructor
    · intro hauto
      rw [if_pos hauto]
      cases hp : (client.PublishPlan rt d.cur.api_id createdPlan.ID
          (client.CreatePlan rt d.cur.api_id (expandPlan d) s).2).1 <;>
        simp [ClientCall.isPublishPlan, hp]
    · intro hauto
      simp [hauto, ClientCall.isPublishPlan]

/-- C5, as stated, fails: on `stagingRemote` the create pass of `goldCreate`
(`auto_publish` enabled) makes the three calls `CreatePlan`, `PublishPlan`,
`GetPlan`, none of which returns an error, the pass returns no diagnostic and
keeps the id, and the final status is `"STAGING"`. -/
theorem planCreate_final_status_staging :
    goldCreate.cur.auto_publish = true ∧
    (resourceGraviteePlanCreate demoClient stagingRemote goldCreate Session.empty).callsSince
        Session.empty =
      [{ call := ClientCall.CreatePlan "api-1" (expandPlan goldCreate), err := none },
       { call := ClientCall.PublishPlan "api-1" "plan-1", err := none },
       { call := ClientCall.GetPlan "api-1" "plan-1", err := none }] ∧
    (resourceGraviteePlanCreate demoClient stagingRemote goldCreate Session.empty).diags = [] ∧
    (resourceGraviteePlanCreate demoClient stagingRemote goldCreate Session.empty).d.id =
      "plan-1" ∧
    (resourceGraviteePlanCreate demoClient stagingRemote goldCreate Session.empty).d.cur.status =
      "STAGING" ∧
    (resourceGraviteePlanCreate demoClient stagingRemote goldCreate Session.empty).d.cur.status ≠
      "PUBLISHED" := by
  decide

/-- C5, amended: in a create pass with `auto_publish` enabled in which
`CreatePlan` returned `createdPlan` and `PublishPlan` returned no error, the
outcome follows the read-back. If `GetPlan` returns a plan, the pass returns no
diagnostic and the final status is the `Status` of that plan; if `GetPlan`
reports the plan absent, the pass returns no diagnostic, the final status is
the locally written `"PUBLISHED"` and the id is cleared. -/
theorem planCreate_final_status_from_read_back (client : Client) (rt : Remote)
    (d : PlanResourceData) (s : Session) (createdPlan : Plan)
    (hauto : d.cur.auto_publish = true)
    (hcreate : (client.CreatePlan rt d.cur.api_id (expandPlan d) s).1 = .ok createdPlan)
    (hpublish : (client.PublishPlan rt d.cur.api_id createdPlan.ID
      (client.CreatePlan rt d.cur.api_id (expandPlan d) s).2).1 = none) :
    (∀ plan, (client.GetPlan rt d.cur.api_id createdPlan.ID
        (client.PublishPlan rt d.cur.api_id createdPlan.ID
          (client.CreatePlan rt d.cur.api_id (expandPlan d) s).2).2).1 = .ok (some plan) →
      (resourceGraviteePlanCreate client rt d s).diags = [] ∧
      (resourceGraviteePlanCreate client rt d s).d.cur.status = plan.Status) ∧
    ((client.GetPlan rt d.cur.api_id createdPlan.ID
        (client.PublishPlan rt d.cur.api_id createdPlan.ID
          (client.CreatePlan rt d.cur.api_id (expandPlan d) s).2).2).1 = .ok none →
      (resourceGraviteePlanCreate client rt d s).diags = [] ∧
      (resourceGraviteePlanCreate client rt d s).d.cur.status = "PUBLISHED" ∧
      (resourceGraviteePlanCreate client rt d s).d.id = "") := by
  unfold resourceGraviteePlanCreate
  simp only [PlanResourceData.SetId, PlanResourceData.Set]
  rcases hc : client.CreatePlan rt d.cur.api_id (expandPlan d) s with ⟨r1, s1⟩
  rw [hc] at hcreate hpublish
  simp only at hcreate hpublish
  subst hcreate
  simp only [hauto, if_true]
  rcases hp : client.PublishPlan rt d.cur.api_id createdPlan.ID s1 with ⟨e2, s2⟩
  rw [hp] at hpublish
  simp only at hpublish
  subst hpublish
  simp only
  unfold resourceGraviteePlanRead
  simp only [PlanResourceData.Id, PlanResourceData.SetId]
  rcases hg : client.GetPlan rt d.cur.api_id createdPlan.ID s2 with ⟨r3, s3⟩
  constructor
  · intro plan hplan
    simp only at hplan
    subst hplan
    simp [flattenPlan, PlanResourceData.Set]
  · intro habs
    simp only at habs
    subst habs
    simp

/-- Witness of the amended C5: the create pass of `goldCreate` on
`stagingRemote`. -/
theorem planCreate_final_status_from_read_back_witness :
    (∀ plan, (demoClient.GetPlan stagingRemote goldCreate.cur.api_id demoPlan.ID
        (demoClient.PublishPlan stagingRemote goldCreate.cur.api_id demoPlan.ID
          (demoClient.CreatePlan stagingRemote goldCreate.cur.api_id (expandPlan goldCreate)
            Session.empty).2).2).1 = .ok (some plan) →
      (resourceGraviteePlanCreate demoClient stagingRemote goldCreate Session.empty).diags = [] ∧
      (resourceGraviteePlanCreate demoClient stagingRemote goldCreate Session.empty).d.cur.status =
        plan.Status) ∧
    ((demoClient.GetPlan stagingRemote goldCreate.cur.api_id demoPlan.ID
        (demoClient.PublishPlan stagingRemote goldCreate.cur.api_id demoPlan.ID
          (demoClient.CreatePlan stagingRemote goldCreate.cur.api_id (expandPlan goldCreate)
            Session.empty).2).2).1 = .ok none →
      (resourceGraviteePlanCreate demoClient stagingRemote goldCreate Session.empty).diags = [] ∧
      (resourceGraviteePlanCreate demoClient stagingRemote goldCreate Session.empty).d.cur.status =
        "PUBLISHED" ∧
      (resourceGraviteePlanCreate demoClient stagingRemote goldCreate Session.empty).d.id = "") :=
  planCreate_final_status_from_read_back demoClient stagingRemote goldCreate Session.empty
    { demoPlan with Status := "STAGING" } (by decide) rfl (by decide)

/-! ## The subscription machine -/

theorem SubscriptionResourceData.HasChange_consumer_configuration
    (d : SubscriptionResourceData) :
    d.HasChange "consumer_configuration" =
      decide (d.state.consumer_configuration ≠ d.cur.consumer_configuration) := rfl

theorem SubscriptionResourceData.HasChange_metadata (d : SubscriptionResourceData) :
    d.HasChange "metadata" = decide (d.state.metadata ≠ d.cur.metadata) := rfl

theorem SubscriptionResourceData.HasChange_plan_id (d : SubscriptionResourceData) :
    d.HasChange "plan_id" = decide (d.state.plan_id ≠ d.cur.plan_id) := rfl

/-- C6: in a create pass whose `CreateSubscription` call returned `created`,
`AcceptSubscription` is called if and only if `auto_validate` is enabled and
`created.Status` is not `"ACCEPTED"`; the `AcceptSubscription` calls of the pass
are then exactly one, with the id `created.ID` and the reason
`"Auto-approved by Terraform"`; and when `created.Status` is `"ACCEPTED"` there
is none, whatever `auto_validate` is. -/
theorem subscriptionCreate_accept_iff (client : Client) (rt : Remote)
    (d : SubscriptionResourceData) (s : Session) (created : Subscription)
    (hcreate : (client.CreateSubscription rt d.cur.api_id (expandSubscription d) s).1 =
      .ok created) :
    ((∃ r ∈ (resourceGraviteeSubscriptionCreate client rt d s).callsSince s,
        r.call.isAcceptSubscription = true) ↔
      (d.cur.auto_validate = true ∧ created.Status ≠ "ACCEPTED")) ∧
    ((((resourceGraviteeSubscriptionCreate client rt d s).callsSince s).filter
        fun r => r.call.isAcceptSubscription).map (fun r => r.call) =
      if d.cur.auto_validate = true ∧ created.Status ≠ "ACCEPTED" then
        [ClientCall.AcceptSubscription d.cur.api_id created.ID "Auto-approved by Terraform"]
      else []) ∧
    (created.Status = "ACCEPTED" →
      ∀ r ∈ (resourceGraviteeSubscriptionCreate client rt d s).callsSince s,
        r.call.isAcceptSubscription = false) := by
  rw [callsSince_append _ _ _ (subscriptionCreate_calls client rt d s)]
  simp only [hcreate]
  by_cases hc : d.cur.auto_validate = true ∧ created.Status ≠ "ACCEPTED"
  · have hcond : (d.cur.auto_validate && decide (created.Status ≠ "ACCEPTED")) = true := by
      simp [hc.1, hc.2]
    rw [if_pos hcond, if_pos hc]
    cases hp : (client.AcceptSubscription rt d.cur.api_id created.ID
        "Auto-approved by Terraform"
        (client.CreateSubscription rt d.cur.api_id (expandSubscription d) s).2).1 <;>
      simp [ClientCall.isAcceptSubscription, hc.1, hc.2]
  · have hcond : ¬ (d.cur.auto_validate && decide (created.Status ≠ "ACCEPTED")) = true := by
      intro h
      simp only [Bool.and_eq_true, decide_eq_true_eq] at h
      exact hc h
    rw [if_neg hcond, if_neg hc]
    simp [ClientCall.isAcceptSubscription, hc]

/-- Witness of C6: the create pass of `subCreate` against a remote that
answers 200 to every request and reports the subscription as `PENDING`. -/
theorem subscriptionCreate_accept_iff_witness :
    ((∃ r ∈ (resourceGraviteeSubscriptionCreate demoClient (constRemote 200) subCreate
          Session.empty).callsSince Session.empty,
        r.call.isAcceptSubscription = true) ↔
      (subCreate.cur.auto_validate = true ∧ demoSubscription.Status ≠ "ACCEPTED")) ∧
    ((((resourceGraviteeSubscriptionCreate demoClient (constRemote 200) subCreate
          Session.empty).callsSince Session.empty).filter
        fun r => r.call.isAcceptSubscription).map (fun r => r.call) =
      if subCreate.cur.auto_validate = true ∧ demoSubscription.Status ≠ "ACCEPTED" then
        [ClientCall.AcceptSubscription subCreate.cur.api_id demoSubscription.ID
          "Auto-approved by Terraform"]
      else []) ∧
    (demoSubscription.Status = "ACCEPTED" →
      ∀ r ∈ (resourceGraviteeSubscriptionCreate demoClient (constRemote 200) subCreate
          Session.empty).callsSince Session.empty,
        r.call.isAcceptSubscription = false) :=
  subscriptionCreate_accept_iff demoClient (constRemote 200) subCreate Session.empty
    demoSubscription rfl

/-- The calls of `resourceGraviteeSubscriptionUpdate`, with the errors that the
calls returned left unnamed (`e1` is that of `UpdateSubscription`, and is no
error when the call is not made). -/
theorem subscriptionUpdate_shape (client : Client) (rt : Remote)
    (d : SubscriptionResourceData) (s : Session) :
    ∃ e1 e2 e3 g : Option GoError,
      (¬ (d.state.consumer_configuration ≠ d.cur.consumer_configuration ∨
            d.state.metadata ≠ d.cur.metadata) → e1 = none) ∧
      (resourceGraviteeSubscriptionUpdate client rt d s).callsSince s =
        (if d.state.consumer_configuration ≠ d.cur.consumer_configuration ∨
            d.state.metadata ≠ d.cur.metadata then
          [{ call := ClientCall.UpdateSubscription d.cur.api_id
               { expandSubscription d with ID := d.id }, err := e1 }]
         else []) ++
        match e1 with
        | some _ => []
        | none =>
          if d.state.plan_id ≠ d.cur.plan_id then
            { call := ClientCall.TransferSubscription d.cur.api_id d.id d.cur.plan_id,
              err := e2 } ::
              match e2 with
              | some _ => []
              | none =>
                if d.cur.auto_validate = true then
                  { call := ClientCall.AcceptSubscription d.cur.api_id d.id
                      "Auto-approved transfer by Terraform", err := e3 } ::
                    match e3 with
                    | some _ => []
                    | none => [{ call := ClientCall.GetSubscription d.cur.api_id d.id, err := g }]
                else [{ call := ClientCall.GetSubscription d.cur.api_id d.id, err := g }]
          else [{ call := ClientCall.GetSubscription d.cur.api_id d.id, err := g }] := by
  rw [callsSince_append _ _ _ (subscriptionUpdate_calls client rt d s)]
  simp only [SubscriptionResourceData.HasChange_consumer_configuration,
    SubscriptionResourceData.HasChange_metadata, SubscriptionResourceData.HasChange_plan_id,
    Bool.or_eq_true, decide_eq_true_eq]
  by_cases hch : d.state.consumer_configuration ≠ d.cur.consumer_configuration ∨
      d.state.metadata ≠ d.cur.metadata
  · simp only [if_pos hch]
    by_cases hpl : d.state.plan_id ≠ d.cur.plan_id
    · simp only [if_pos hpl]
      by_cases hav : d.cur.auto_validate = true
      · simp only [if_pos hav]
        exact ⟨_, _, _, _, fun h => absurd hch h, rfl⟩
      · simp only [if_neg hav]
        exact ⟨_, _, none, _, fun h => absurd hch h, rfl⟩
    · simp only [if_neg hpl]
      exact ⟨_, none, none, _, fun h => absurd hch h, rfl⟩
  · simp only [if_neg hch]
    by_cases hpl : d.state.plan_id ≠ d.cur.plan_id
    · simp only [if_pos hpl]
      by_cases hav : d.cur.auto_validate = true
      · simp only [if_pos hav]
        exact ⟨none, _, _, _, fun _ => rfl, rfl⟩
      · simp only [if_neg hav]
        exact ⟨none, _, none, _, fun _ => rfl, rfl⟩
    · simp only [if_neg hpl]
      exact ⟨none, none, none, _, fun _ => rfl, rfl⟩

/-- C7: in an update pass all of whose calls returned no error, the
`UpdateSubscription` calls are exactly one (with the expanded subscription
and the stored id) when `consumer_configuration` or `metadata` changed and none
otherwise, and the `TransferSubscription` calls are exactly one (with the
stored id and the new `plan_id`) when `plan_id` changed and none otherwise.
Each list depends on its own trigger only, so when both triggers fire both
calls are made once each in the same pass. -/
theorem subscriptionUpdate_triggers_independent (client : Client) (rt : Remote)
    (d : SubscriptionResourceData) (s : Session)
    (hok : ∀ r ∈ (resourceGraviteeSubscriptionUpdate client rt d s).callsSince s,
      r.err = none) :
    ((((resourceGraviteeSubscriptionUpdate client rt d s).callsSince s).filter
        fun r => r.call.isUpdateSubscription).map (fun r => r.call) =
      if d.state.consumer_configuration ≠ d.cur.consumer_configuration ∨
          d.state.metadata ≠ d.cur.metadata then
        [ClientCall.UpdateSubscription d.cur.api_id { expandSubscription d with ID := d.id }]
      else []) ∧
    ((((resourceGraviteeSubscriptionUpdate client rt d s).callsSince s).filter
        fun r => r.call.isTransferSubscription).map (fun r => r.call) =
      if d.state.plan_id ≠ d.cur.plan_id then
        [ClientCall.TransferSubscription d.cur.api_id d.id d.cur.plan_id]
      else []) := by
  obtain ⟨e1, e2, e3, g, hnone, h⟩ := subscriptionUpdate_shape client rt d s
  rw [h] at hok ⊢
  clear h
  by_cases hch : d.state.consumer_configuration ≠ d.cur.consumer_configuration ∨
      d.state.metadata ≠ d.cur.metadata
  · rw [if_pos hch] at hok ⊢
    have h1 : e1 = none :=
      hok { call := _, err := e1 } (List.mem_append_left _ (List.mem_singleton.mpr rfl))
    subst h1
    by_cases hpl : d.state.plan_id ≠ d.cur.plan_id
    · simp only [if_pos hpl] at hok ⊢
      have h2 : e2 = none :=
        hok { call := _, err := e2 } (List.mem_append_right _ (List.mem_cons_self _ _))
      subst h2
      by_cases hav : d.cur.auto_validate = true
      · simp only [if_pos hav] at hok ⊢
        cases e3 <;>
          simp [ClientCall.isUpdateSubscription, ClientCall.isTransferSubscription, hch, hpl]
      · simp only [if_neg hav]
        simp [ClientCall.isUpdateSubscription, ClientCall.isTransferSubscription, hch, hpl]
    · simp only [if_neg hpl]
      simp [ClientCall.isUpdateSubscription, ClientCall.isTransferSubscription, hch, hpl]
  · rw [if_neg hch] at hok ⊢
    have h1 : e1 = none := hnone hch
    subst h1
    by_cases hpl : d.state.plan_id ≠ d.cur.plan_id
    · simp only [if_pos hpl] at hok ⊢
      have h2 : e2 = none :=
        hok { call := _, err := e2 } (List.mem_append_right _ (List.mem_cons_self _ _))
      subst h2
      by_cases hav : d.cur.auto_validate = true
      · simp only [if_pos hav] at hok ⊢
        cases e3 <;>
          simp [ClientCall.isUpdateSubscription, ClientCall.isTransferSubscription, hch, hpl]
      · simp only [if_neg hav]
        simp [ClientCall.isUpdateSubscription, ClientCall.isTransferSubscription, hch, hpl]
    · simp only [if_neg hpl]
      simp [ClientCall.isUpdateSubscription, ClientCall.isTransferSubscription, hch, hpl]

/-- Witness of C7: the update pass of `planAndMetadataUpdate` (plan A to B,
metadata `x` from 1 to 2) against a remote that answers 200 to every request. -/
theorem subscriptionUpdate_triggers_independent_witness :
    ((((resourceGraviteeSubscriptionUpdate demoClient (constRemote 200) planAndMetadataUpdate
          Session.empty).callsSince Session.empty).filter
        fun r => r.call.isUpdateSubscription).map (fun r => r.call) =
      if planAndMetadataUpdate.state.consumer_configuration ≠
            planAndMetadataUpdate.cur.consumer_configuration ∨
          planAndMetadataUpdate.state.metadata ≠ planAndMetadataUpdate.cur.metadata then
        [ClientCall.UpdateSubscription planAndMetadataUpdate.cur.api_id
          { expandSubscription planAndMetadataUpdate with ID := planAndMetadataUpdate.id }]
      else []) ∧
    ((((resourceGraviteeSubscriptionUpdate demoClient (constRemote 200) planAndMetadataUpdate
          Session.empty).callsSince Session.empty).filter
        fun r => r.call.isTransferSubscription).map (fun r => r.call) =
      if planAndMetadataUpdate.state.plan_id ≠ planAndMetadataUpdate.cur.plan_id then
        [ClientCall.TransferSubscription planAndMetadataUpdate.cur.api_id
          planAndMetadataUpdate.id planAndMetadataUpdate.cur.plan_id]
      else []) :=
  subscriptionUpdate_triggers_independent demoClient (constRemote 200) planAndMetadataUpdate
    Session.empty (by decide)

/-- C8: in an update pass, `AcceptSubscription` is called if and only if
`plan_id` changed, a `TransferSubscription` call of the pass returned no error
and `auto_validate` is enabled. When it is called, the pass contains, next to
each other, the successful `TransferSubscription` and then the
`AcceptSubscription`, both with the stored subscription id, and no other
`AcceptSubscription`. When `plan_id` did not change, no `AcceptSubscription`
is called. -/
theorem subscriptionUpdate_accept_iff_transferred (client : Client) (rt : Remote)
    (d : SubscriptionResourceData) (s : Session) :
    ((∃ r ∈ (resourceGraviteeSubscriptionUpdate client rt d s).callsSince s,
        r.call.isAcceptSubscription = true) ↔
      (d.state.plan_id ≠ d.cur.plan_id ∧
        (∃ r ∈ (resourceGraviteeSubscriptionUpdate client rt d s).callsSince s,
          r.call.isTransferSubscription = true ∧ r.err = none) ∧
        d.cur.auto_validate = true)) ∧
    ((∃ r ∈ (resourceGraviteeSubscriptionUpdate client rt d s).callsSince s,
        r.call.isAcceptSubscription = true) →
      ∃ (before after : List CallRecord) (e : Option GoError),
        (resourceGraviteeSubscriptionUpdate client rt d s).callsSince s =
          before ++
            [{ call := ClientCall.TransferSubscription d.cur.api_id d.id d.cur.plan_id,
               err := none },
             { call := ClientCall.AcceptSubscription d.cur.api_id d.id
                 "Auto-approved transfer by Terraform", err := e }] ++ after ∧
        (∀ r ∈ before ++ after, r.call.isAcceptSubscription = false)) ∧
    (d.state.plan_id = d.cur.plan_id →
      ∀ r ∈ (resourceGraviteeSubscriptionUpdate client rt d s).callsSince s,
        r.call.isAcceptSubscription = false) := by
  obtain ⟨e1, e2, e3, g, -, h⟩ := subscriptionUpdate_shape client rt d s
  rw [h]
  clear h
  have hpre : ∀ r ∈ (if d.state.consumer_configuration ≠ d.cur.consumer_configuration ∨
        d.state.metadata ≠ d.cur.metadata then
      [({ call := ClientCall.UpdateSubscription d.cur.api_id
            { expandSubscription d with ID := d.id }, err := e1 } : CallRecord)]
      else []), r.call.isAcceptSubscription = false ∧ r.call.isTransferSubscription = false := by
    intro r hr
    split at hr
    · rw [List.mem_singleton.mp hr]
      exact ⟨rfl, rfl⟩
    · simp at hr
  generalize (if d.state.consumer_configuration ≠ d.cur.consumer_configuration ∨
        d.state.metadata ≠ d.cur.metadata then
      [({ call := ClientCall.UpdateSubscription d.cur.api_id
            { expandSubscription d with ID := d.id }, err := e1 } : CallRecord)]
      else []) = pre at hpre ⊢
  have hA : ∀ r ∈ pre, r.call.isAcceptSubscription = false := fun r hr => (hpre r hr).1
  have hT : ∀ r ∈ pre, r.call.isTransferSubscription = false := fun r hr => (hpre r hr).2
  have hA' : ¬ ∃ r ∈ pre, r.call.isAcceptSubscription = true := by
    rintro ⟨r, hr, h⟩
    rw [hA r hr] at h
    exact Bool.false_ne_true h
  have hT' : ¬ ∃ r ∈ pre, r.call.isTransferSubscription = true ∧ r.err = none := by
    rintro ⟨r, hr, h, -⟩
    rw [hT r hr] at h
    exact Bool.false_ne_true h
  cases e1 with
  | some err1 =>
    simp only [List.append_nil]
    refine ⟨?_, fun hacc => absurd hacc hA', fun _ => hA⟩
    constructor
    · intro hacc
      exact absurd hacc hA'
    · rintro ⟨-, htr, -⟩
      exact absurd htr hT'
  | none =>
    simp only
    by_cases hpl : d.state.plan_id ≠ d.cur.plan_id
    · simp only [if_pos hpl]
      cases e2 with
      | some err2 =>
        simp only [List.mem_append, List.mem_singleton]
        refine ⟨?_, ?_, fun hsame => absurd hsame hpl⟩
        · constructor
          · rintro ⟨r, hr | hr, hacc⟩
            · exact absurd ⟨r, hr, hacc⟩ hA'
            · rw [hr] at hacc
              exact absurd hacc (by simp [ClientCall.isAcceptSubscription])
          · rintro ⟨-, ⟨r, hr | hr, htr, herr⟩, -⟩
            · exact absurd ⟨r, hr, htr, herr⟩ hT'
            · rw [hr] at herr
              exact absurd herr (by simp)
        · rintro ⟨r, hr | hr, hacc⟩
          · exact absurd ⟨r, hr, hacc⟩ hA'
          · rw [hr] at hacc
            exact absurd hacc (by simp [ClientCall.isAcceptSubscription])
      | none =>
        simp only
        by_cases hav : d.cur.auto_validate = true
        · simp only [if_pos hav]
          cases e3 with
          | some err3 =>
            simp only
            refine ⟨⟨fun _ => ⟨hpl, ⟨_, List.mem_append_right _ (List.mem_cons_self _ _),
              rfl, rfl⟩, hav⟩, fun _ => ⟨_, List.mem_append_right _
                (List.mem_cons_of_mem _ (List.mem_cons_self _ _)), rfl⟩⟩, fun _ => ?_,
              fun hsame => absurd hsame hpl⟩
            refine ⟨pre, [], some err3, by simp, ?_⟩
            intro r hr
            rw [List.append_nil] at hr
            exact hA r hr
          | none =>
            simp only
            refine ⟨⟨fun _ => ⟨hpl, ⟨_, List.mem_append_right _ (List.mem_cons_self _ _),
              rfl, rfl⟩, hav⟩, fun _ => ⟨_, List.mem_append_right _
                (List.mem_cons_of_mem _ (List.mem_cons_self _ _)), rfl⟩⟩, fun _ => ?_,
              fun hsame => absurd hsame hpl⟩
            refine ⟨pre, [{ call := ClientCall.GetSubscription d.cur.api_id d.id, err := g }],
              none, by simp, ?_⟩
            intro r hr
            rcases List.mem_append.mp hr with hr | hr
            · exact hA r hr
            · rw [List.mem_singleton.mp hr]
              rfl
        · simp only [if_neg hav]
          have hno : ¬ ∃ r ∈ pre ++
              [{ call := ClientCall.TransferSubscription d.cur.api_id d.id d.cur.plan_id,
                 err := none },
               { call := ClientCall.GetSubscription d.cur.api_id d.id, err := g }],
              r.call.isAcceptSubscription = true := by
            rintro ⟨r, hr, hacc⟩
            rcases List.mem_append.mp hr with hr | hr
            · exact hA' ⟨r, hr, hacc⟩
            · simp only [List.mem_cons, List.mem_singleton, List.not_mem_nil, or_false] at hr
              rcases hr with hr | hr <;> rw [hr] at hacc <;>
                exact absurd hacc (by simp [ClientCall.isAcceptSubscription])
          refine ⟨⟨fun hacc => absurd hacc hno, fun hx => absurd hx.2.2 hav⟩,
            fun hacc => absurd hacc hno, fun hsame => absurd hsame hpl⟩
    · simp only [if_neg hpl]
      have hno : ¬ ∃ r ∈ pre ++
          [{ call := ClientCall.GetSubscription d.cur.api_id d.id, err := g }],
          r.call.isAcceptSubscription = true := by
        rintro ⟨r, hr, hacc⟩
        rcases List.mem_append.mp hr with hr | hr
        · exact hA' ⟨r, hr, hacc⟩
        · rw [List.mem_singleton.mp hr] at hacc
          exact absurd hacc (by simp [ClientCall.isAcceptSubscription])
      refine ⟨⟨fun hacc => absurd hacc hno, fun hx => absurd hx.1 hpl⟩,
        fun hacc => absurd hacc hno, fun _ r hr => ?_⟩
      cases hb : r.call.isAcceptSubscription with
      | false => rfl
      | true => exact absurd ⟨r, hr, hb⟩ hno

/-! ## Delete and read -/

/-- The error of `DeletePlan` once the remote has answered. -/
theorem DeletePlan_result (c : Client) (rt : Remote) (apiID planID : String) (s : Session)
    (resp : Response)
    (hurl : rt.urlError (deletePlanRequest c apiID planID).URL = none)
    (hresp : rt.roundTrip s.sent (deletePlanRequest c apiID planID) = .ok resp) :
    (c.DeletePlan rt apiID planID s).1 =
      if resp.StatusCode = 204 ∨ resp.StatusCode = 200 then none
      else some (statusError resp.StatusCode) := by
  simp only [deletePlanRequest] at hurl hresp
  simp only [Client.DeletePlan, traced, NewRequest, hurl, Do, Request.SetBasicAuth, hresp]
  by_cases h : resp.StatusCode = 204 ∨ resp.StatusCode = 200
  · rw [if_pos h, if_neg (by tauto)]
  · rw [if_neg h, if_pos (by tauto)]

/-- The error of `CloseSubscription` once the remote has answered. -/
theorem CloseSubscription_result (c : Client) (rt : Remote) (apiID subscriptionID : String)
    (s : Session) (resp : Response)
    (hurl : rt.urlError (closeSubscriptionRequest c apiID subscriptionID).URL = none)
    (hresp : rt.roundTrip s.sent (closeSubscriptionRequest c apiID subscriptionID) = .ok resp) :
    (c.CloseSubscription rt apiID subscriptionID s).1 =
      if resp.StatusCode = 204 ∨ resp.StatusCode = 200 then none
      else some (statusError resp.StatusCode) := by
  simp only [closeSubscriptionRequest] at hurl hresp
  simp only [Client.CloseSubscription, traced, NewRequest, hurl, Do, Request.SetBasicAuth, hresp]
  by_cases h : resp.StatusCode = 204 ∨ resp.StatusCode = 200
  · rw [if_pos h, if_neg (by tauto)]
  · rw [if_neg h, if_pos (by tauto)]

/-- What `resourceGraviteePlanDelete` returns, by the error of `DeletePlan`. -/
theorem planDelete_outcome (client : Client) (rt : Remote) (d : PlanResourceData)
    (s : Session) :
    match (client.DeletePlan rt d.cur.api_id d.id s).1 with
    | some err =>
      (resourceGraviteePlanDelete client rt d s).diags = diag.FromErr err ∧
      (resourceGraviteePlanDelete client rt d s).d = d
    | none =>
      (resourceGraviteePlanDelete client rt d s).diags = [] ∧
      (resourceGraviteePlanDelete client rt d s).d = { d with id := "" } := by
  unfold resourceGraviteePlanDelete
  simp only [PlanResourceData.Id, PlanResourceData.SetId]
  rcases h : client.DeletePlan rt d.cur.api_id d.id s with ⟨e, s1⟩
  cases e <;> simp

/-- What `resourceGraviteeSubscriptionDelete` returns, by the error of
`CloseSubscription`. -/
theorem subscriptionDelete_outcome (client : Client) (rt : Remote)
    (d : SubscriptionResourceData) (s : Session) :
    match (client.CloseSubscription rt d.cur.api_id d.id s).1 with
    | some err =>
      (resourceGraviteeSubscriptionDelete client rt d s).diags = diag.FromErr err ∧
      (resourceGraviteeSubscriptionDelete client rt d s).d = d
    | none =>
      (resourceGraviteeSubscriptionDelete client rt d s).diags = [] ∧
      (resourceGraviteeSubscriptionDelete client rt d s).d = { d with id := "" } := by
  unfold resourceGraviteeSubscriptionDelete
  simp only [SubscriptionResourceData.Id, SubscriptionResourceData.SetId]
  rcases h : client.CloseSubscription rt d.cur.api_id d.id s with ⟨e, s1⟩
  cases e <;> simp

/-- C9, as stated, fails: against a remote that answers 404 (already absent)
to every request, `DeletePlan` and `CloseSubscription` return the error
`"API returned status code 404"`, and both delete passes return it as their
diagnostic and keep the id. -/
theorem delete_of_absent_resource_fails :
    (demoClient.DeletePlan (constRemote 404) "api-1" "plan-1" Session.empty).1 =
      some "API returned status code 404" ∧
    (demoClient.CloseSubscription (constRemote 404) "api-1" "sub-1" Session.empty).1 =
      some "API returned status code 404" ∧
    (resourceGraviteePlanDelete demoClient (constRemote 404) goldDelete Session.empty).diags =
      diag.FromErr "API returned status code 404" ∧
    (resourceGraviteePlanDelete demoClient (constRemote 404) goldDelete Session.empty).d.id =
      "plan-1" ∧
    (resourceGraviteeSubscriptionDelete demoClient (constRemote 404) subDelete
      Session.empty).diags = diag.FromErr "API returned status code 404" ∧
    (resourceGraviteeSubscriptionDelete demoClient (constRemote 404) subDelete
      Session.empty).d.id = "sub-1" := by
  decide

/-- C9, amended: once the remote has answered the delete request of a plan
(`respP`) and of a subscription (`respS`), `DeletePlan` and `CloseSubscription`
return no error exactly when the status is 204 or 200. On 404 they return the
error `statusError 404`, and the delete pass returns it as its diagnostic and
leaves the resource data, the id included, unchanged. -/
theorem delete_succeeds_iff_204_or_200 (client : Client) (rt : Remote)
    (d : PlanResourceData) (ds : SubscriptionResourceData) (s : Session)
    (respP respS : Response)
    (hurlP : rt.urlError (deletePlanRequest client d.cur.api_id d.id).URL = none)
    (hrespP : rt.roundTrip s.sent (deletePlanRequest client d.cur.api_id d.id) = .ok respP)
    (hurlS : rt.urlError (closeSubscriptionRequest client ds.cur.api_id ds.id).URL = none)
    (hrespS : rt.roundTrip s.sent (closeSubscriptionRequest client ds.cur.api_id ds.id) =
      .ok respS) :
    ((client.DeletePlan rt d.cur.api_id d.id s).1 = none ↔
      (respP.StatusCode = 204 ∨ respP.StatusCode = 200)) ∧
    (respP.StatusCode = 404 →
      (client.DeletePlan rt d.cur.api_id d.id s).1 = some (statusError 404) ∧
      (resourceGraviteePlanDelete client rt d s).diags = diag.FromErr (statusError 404) ∧
      (resourceGraviteePlanDelete client rt d s).d = d) ∧
    ((client.CloseSubscription rt ds.cur.api_id ds.id s).1 = none ↔
      (respS.StatusCode = 204 ∨ respS.StatusCode = 200)) ∧
    (respS.StatusCode = 404 →
      (client.CloseSubscription rt ds.cur.api_id ds.id s).1 = some (statusError 404) ∧
      (resourceGraviteeSubscriptionDelete client rt ds s).diags =
        diag.FromErr (statusError 404) ∧
      (resourceGraviteeSubscriptionDelete client rt ds s).d = ds) := by
  have hP := DeletePlan_result client rt d.cur.api_id d.id s respP hurlP hrespP
  have hS := CloseSubscription_result client rt ds.cur.api_id ds.id s respS hurlS hrespS
  have oP := planDelete_outcome client rt d s
  have oS := subscriptionDelete_outcome client rt ds s
  refine ⟨?_, ?_, ?_, ?_⟩
  · rw [hP]
    by_cases h : respP.StatusCode = 204 ∨ respP.StatusCode = 200 <;> simp [h]
  · intro h404
    have hne : ¬ (respP.StatusCode = 204 ∨ respP.StatusCode = 200) := by omega
    rw [if_neg hne, h404] at hP
    rw [hP] at oP
    exact ⟨hP, oP.1, oP.2⟩
  · rw [hS]
    by_cases h : respS.StatusCode = 204 ∨ respS.StatusCode = 200 <;> simp [h]
  · intro h404
    have hne : ¬ (respS.StatusCode = 204 ∨ respS.StatusCode = 200) := by omega
    rw [if_neg hne, h404] at hS
    rw [hS] at oS
    exact ⟨hS, oS.1, oS.2⟩

/-- Witness of the amended C9: the deletes of `goldDelete` and `subDelete`
against a remote that answers 404 to every request. -/
theorem delete_succeeds_iff_204_or_200_witness :
    ((demoClient.DeletePlan (constRemote 404) goldDelete.cur.api_id goldDelete.id
        Session.empty).1 = none ↔ ((404 : Nat) = 204 ∨ (404 : Nat) = 200)) ∧
    ((404 : Nat) = 404 →
      (demoClient.DeletePlan (constRemote 404) goldDelete.cur.api_id goldDelete.id
        Session.empty).1 = some (statusError 404) ∧
      (resourceGraviteePlanDelete demoClient (constRemote 404) goldDelete Session.empty).diags =
        diag.FromErr (statusError 404) ∧
      (resourceGraviteePlanDelete demoClient (constRemote 404) goldDelete Session.empty).d =
        goldDelete) ∧
    ((demoClient.CloseSubscription (constRemote 404) subDelete.cur.api_id subDelete.id
        Session.empty).1 = none ↔ ((404 : Nat) = 204 ∨ (404 : Nat) = 200)) ∧
    ((404 : Nat) = 404 →
      (demoClient.CloseSubscription (constRemote 404) subDelete.cur.api_id subDelete.id
        Session.empty).1 = some (statusError 404) ∧
      (resourceGraviteeSubscriptionDelete demoClient (constRemote 404) subDelete
        Session.empty).diags = diag.FromErr (statusError 404) ∧
      (resourceGraviteeSubscriptionDelete demoClient (constRemote 404) subDelete
        Session.empty).d = subDelete) :=
  delete_succeeds_iff_204_or_200 demoClient (constRemote 404) goldDelete subDelete
    Session.empty { StatusCode := 404, Body := "" } { StatusCode := 404, Body := "" }
    rfl rfl rfl rfl

/-- The result of `GetPlan`, by what `http.NewRequest` and the remote return. -/
theorem GetPlan_result (c : Client) (rt : Remote) (apiID planID : String) (s : Session) :
    (c.GetPlan rt apiID planID s).1 =
      readOutcome (rt.urlError (getPlanRequest c apiID planID).URL)
        (rt.roundTrip s.sent (getPlanRequest c apiID planID)) rt.decodePlan := by
  simp only [getPlanRequest, Client.GetPlan, tracedResult, NewRequest, Do, Request.SetBasicAuth,
    readOutcome]
  cases hu : rt.urlError (apiURL c apiID ++ "/plans/" ++ planID) with
  | some err => rfl
  | none =>
    simp only
    cases hr : rt.roundTrip s.sent
        { Method := "GET", URL := apiURL c apiID ++ "/plans/" ++ planID, Body := none,
          ContentType := none, BasicAuth := some (c.Username, c.Password) } with
    | error err => rfl
    | ok resp =>
      simp only
      by_cases h404 : resp.StatusCode = 404
      · simp only [h404, if_true]
      · simp only [if_neg h404]
        by_cases h200 : resp.StatusCode = 200
        · simp only [h200, ne_eq, not_true_eq_false, if_false]
          cases rt.decodePlan resp.Body <;> rfl
        · simp only [ne_eq, h200, not_false_eq_true, if_true]

/-- The result of `GetSubscription`, by what `http.NewRequest` and the remote
return. -/
theorem GetSubscription_result (c : Client) (rt : Remote) (apiID subscriptionID : String)
    (s : Session) :
    (c.GetSubscription rt apiID subscriptionID s).1 =
      readOutcome (rt.urlError (getSubscriptionRequest c apiID subscriptionID).URL)
        (rt.roundTrip s.sent (getSubscriptionRequest c apiID subscriptionID))
        rt.decodeSubscription := by
  simp only [getSubscriptionRequest, Client.GetSubscription, tracedResult, NewRequest, Do,
    Request.SetBasicAuth, readOutcome]
  cases hu : rt.urlError (apiURL c apiID ++ "/subscriptions/" ++ subscriptionID) with
  | some err => rfl
  | none =>
    simp only
    cases hr : rt.roundTrip s.sent
        { Method := "GET", URL := apiURL c apiID ++ "/subscriptions/" ++ subscriptionID,
          Body := none, ContentType := none,
          BasicAuth := some (c.Username, c.Password) } with
    | error err => rfl
    | ok resp =>
      simp only
      by_cases h404 : resp.StatusCode = 404
      · simp only [h404, if_true]
      · simp only [if_neg h404]
        by_cases h200 : resp.StatusCode = 200
        · simp only [h200, ne_eq, not_true_eq_false, if_false]
          cases rt.decodeSubscription resp.Body <;> rfl
        · simp only [ne_eq, h200, not_false_eq_true, if_true]

/-- The three outcomes of a read: absent exactly on 404, a value exactly on 200
with a body that decodes, the status error on every other status. -/
theorem readOutcome_cases {α : Type} (urlErr : Option GoError)
    (answer : Except GoError Response) (decode : String → Except GoError α) :
    (readOutcome urlErr answer decode = .ok none ↔
      urlErr = none ∧ ∃ resp, answer = .ok resp ∧ resp.StatusCode = 404) ∧
    (∀ v, readOutcome urlErr answer decode = .ok (some v) ↔
      urlErr = none ∧ ∃ resp, answer = .ok resp ∧ resp.StatusCode = 200 ∧
        decode resp.Body = .ok v) ∧
    (∀ resp, urlErr = none → answer = .ok resp → resp.StatusCode ≠ 404 →
      resp.StatusCode ≠ 200 →
      readOutcome urlErr answer decode = .error (statusError resp.StatusCode)) := by
  unfold readOutcome
  cases urlErr with
  | some err => simp
  | none =>
    cases answer with
    | error err => simp
    | ok resp =>
      by_cases h404 : resp.StatusCode = 404
      · simp [h404]
      · by_cases h200 : resp.StatusCode = 200
        · cases hd : decode resp.Body <;> simp [h200, hd]
        · simp [h404, h200]

/-- C10: `GetPlan` and `GetSubscription` return the absent outcome `nil, nil`
if and only if the request was sent and the remote answered 404; they return a
resource if and only if the remote answered 200 with a body that decodes to
it; for every other status they return the error `statusError` of that status.
When the result is absent, `resourceGraviteePlanRead` and
`resourceGraviteeSubscriptionRead` return no diagnostic and change nothing in
the resource data but the id, which becomes empty. -/
theorem read_absent_iff_404 (c : Client) (rt : Remote) (apiID id : String) (s : Session)
    (d : PlanResourceData) (ds : SubscriptionResourceData) :
    (((c.GetPlan rt apiID id s).1 = .ok none ↔
        rt.urlError (getPlanRequest c apiID id).URL = none ∧
        ∃ resp, rt.roundTrip s.sent (getPlanRequest c apiID id) = .ok resp ∧
          resp.StatusCode = 404) ∧
      (∀ plan, (c.GetPlan rt apiID id s).1 = .ok (some plan) ↔
        rt.urlError (getPlanRequest c apiID id).URL = none ∧
        ∃ resp, rt.roundTrip s.sent (getPlanRequest c apiID id) = .ok resp ∧
          resp.StatusCode = 200 ∧ rt.decodePlan resp.Body = .ok plan) ∧
      (∀ resp, rt.urlError (getPlanRequest c apiID id).URL = none →
        rt.roundTrip s.sent (getPlanRequest c apiID id) = .ok resp →
        resp.StatusCode ≠ 404 → resp.StatusCode ≠ 200 →
        (c.GetPlan rt apiID id s).1 = .error (statusError resp.StatusCode))) ∧
    (((c.GetSubscription rt apiID id s).1 = .ok none ↔
        rt.urlError (getSubscriptionRequest c apiID id).URL = none ∧
        ∃ resp, rt.roundTrip s.sent (getSubscriptionRequest c apiID id) = .ok resp ∧
          resp.StatusCode = 404) ∧
      (∀ subscription, (c.GetSubscription rt apiID id s).1 = .ok (some subscription) ↔
        rt.urlError (getSubscriptionRequest c apiID id).URL = none ∧
        ∃ resp, rt.roundTrip s.sent (getSubscriptionRequest c apiID id) = .ok resp ∧
          resp.StatusCode = 200 ∧ rt.decodeSubscription resp.Body = .ok subscription) ∧
      (∀ resp, rt.urlError (getSubscriptionRequest c apiID id).URL = none →
        rt.roundTrip s.sent (getSubscriptionRequest c apiID id) = .ok resp →
        resp.StatusCode ≠ 404 → resp.StatusCode ≠ 200 →
        (c.GetSubscription rt apiID id s).1 = .error (statusError resp.StatusCode))) ∧
    ((c.GetPlan rt d.cur.api_id d.id s).1 = .ok none →
      (resourceGraviteePlanRead c rt d s).diags = [] ∧
      (resourceGraviteePlanRead c rt d s).d = { d with id := "" }) ∧
    ((c.GetSubscription rt ds.cur.api_id ds.id s).1 = .ok none →
      (resourceGraviteeSubscriptionRead c rt ds s).diags = [] ∧
      (resourceGraviteeSubscriptionRead c rt ds s).d = { ds with id := "" }) := by
  refine ⟨?_, ?_, ?_, ?_⟩
  · rw [GetPlan_result]
    exact readOutcome_cases _ _ _
  · rw [GetSubscription_result]
    exact readOutcome_cases _ _ _
  · intro habs
    unfold resourceGraviteePlanRead
    simp only [PlanResourceData.Id, PlanResourceData.SetId]
    rcases hg : c.GetPlan rt d.cur.api_id d.id s with ⟨r, s1⟩
    rw [hg] at habs
    simp only at habs
    subst habs
    exact ⟨rfl, rfl⟩
  · intro habs
    unfold resourceGraviteeSubscriptionRead
    simp only [SubscriptionResourceData.Id, SubscriptionResourceData.SetId]
    rcases hg : c.GetSubscription rt ds.cur.api_id ds.id s with ⟨r, s1⟩
    rw [hg] at habs
    simp only at habs
    subst habs
    exact ⟨rfl, rfl⟩

/-! ## Round trips -/

/-- The plan that `expandPlan` builds, field by field. -/
theorem expandPlan_fields (d : PlanResourceData) :
    expandPlan d =
      { ID := "", Name := d.cur.name, Description := d.cur.description,
        DefinitionVersion := d.cur.definition_version, Mode := d.cur.mode,
        Security := some { Type_ := d.cur.security_type },
        Characteristics := d.cur.characteristics, Validation := d.cur.validation,
        Status := "" } := by
  unfold expandPlan PlanResourceData.GetOk_characteristics PlanResourceData.GetOk_validation
  by_cases hc : d.cur.characteristics = [] <;> by_cases hv : d.cur.validation = "" <;>
    simp [hc, hv]

/-- C11: flattening the expanded plan of a record `d` back into `d` raises no
error and gives `d` again except for `status`, which becomes the (empty) status
of the expanded plan: `id`, `name`, `description`, `definition_version`, `mode`,
`security_type`, `characteristics` (same elements, same order) and
`validation` are those of `d`. Flattened into any other record whose
`validation` is unset when that of `d` is, the seven declared fields are again
those of `d`. An unset `characteristics` or `validation` is left out of the
expanded plan and is unset in the result. -/
theorem plan_round_trip (d : PlanResourceData) :
    flattenPlan d (expandPlan d) = ({ d with cur := { d.cur with status := "" } }, none) ∧
    (∀ base : PlanResourceData, (d.cur.validation = "" → base.cur.validation = "") →
      (flattenPlan base (expandPlan d)).1.cur.name = d.cur.name ∧
      (flattenPlan base (expandPlan d)).1.cur.description = d.cur.description ∧
      (flattenPlan base (expandPlan d)).1.cur.definition_version = d.cur.definition_version ∧
      (flattenPlan base (expandPlan d)).1.cur.mode = d.cur.mode ∧
      (flattenPlan base (expandPlan d)).1.cur.security_type = d.cur.security_type ∧
      (flattenPlan base (expandPlan d)).1.cur.characteristics = d.cur.characteristics ∧
      (flattenPlan base (expandPlan d)).1.cur.validation = d.cur.validation) ∧
    (d.cur.characteristics = [] →
      (expandPlan d).Characteristics = [] ∧
      (flattenPlan d (expandPlan d)).1.cur.characteristics = []) ∧
    (d.cur.validation = "" →
      (expandPlan d).Validation = "" ∧
      (flattenPlan d (expandPlan d)).1.cur.validation = "") := by
  rw [expandPlan_fields]
  refine ⟨?_, ?_, ?_, ?_⟩
  · by_cases hv : d.cur.validation = "" <;>
      simp [flattenPlan, PlanResourceData.Set, hv]
  · intro base hbase
    by_cases hv : d.cur.validation = ""
    · simp [flattenPlan, PlanResourceData.Set, hv, hbase hv]
    · simp [flattenPlan, PlanResourceData.Set, hv]
  · intro hc
    by_cases hv : d.cur.validation = "" <;>
      simp [flattenPlan, PlanResourceData.Set, hv, hc]
  · intro hv
    simp [flattenPlan, PlanResourceData.Set, hv]

/-- The consumer configuration of a block survives expand and flatten. -/
theorem consumerConfiguration_block_round_trip (b : ConsumerConfigurationBlock)
    (hb : b.entrypoint_configuration.length ≤ 1) :
    (flattenConsumerConfiguration (expandConsumerConfiguration b.toMap)).toBlock = b := by
  obtain ⟨eid, ch, ecs⟩ := b
  match ecs, hb with
  | [], _ =>
    by_cases hch : ch = "" <;>
      simp [flattenConsumerConfiguration, expandConsumerConfiguration,
        ConsumerConfigurationBlock.toMap, ConsumerConfigurationMap.toBlock, hch]
  | [e], _ =>
    obtain ⟨url, hs⟩ := e
    by_cases hch : ch = "" <;> by_cases hh : hs = [] <;>
      simp [flattenConsumerConfiguration, expandConsumerConfiguration,
        ConsumerConfigurationBlock.toMap, ConsumerConfigurationMap.toBlock,
        EntrypointConfigurationBlock.toMap, EntrypointConfigurationMap.toBlock, hch, hh,
        List.length_pos, Function.comp_def]
  | _ :: _ :: _, h => simp at h

/-- The subscription that `expandSubscription` builds, field by field. -/
theorem expandSubscription_fields (d : SubscriptionResourceData) :
    expandSubscription d =
      { ID := "", PlanID := d.cur.plan_id, ApplicationID := d.cur.application_id,
        Status := "",
        ConsumerConfiguration :=
          d.cur.consumer_configuration.head?.map fun b => expandConsumerConfiguration b.toMap,
        Metadata := if d.cur.metadata = [] then none else some d.cur.metadata } := by
  unfold expandSubscription SubscriptionResourceData.GetOk_consumer_configuration
    SubscriptionResourceData.GetOk_metadata
  cases hcc : d.cur.consumer_configuration <;> by_cases hm : d.cur.metadata = [] <;>
    simp [hm]

/-- What `flattenConsumerConfiguration` leaves out: an empty channel, a nil
entrypoint configuration and an empty header list have no key in the map. -/
theorem flattenConsumerConfiguration_omits (cc : ConsumerConfiguration) :
    (flattenConsumerConfiguration cc).channel ≠ some "" ∧
    (flattenConsumerConfiguration cc).entrypoint_configuration ≠ some [] ∧
    (∀ e ∈ (flattenConsumerConfiguration cc).entrypoint_configuration.getD [],
      e.headers ≠ some []) ∧
    (cc.Channel = "" → (flattenConsumerConfiguration cc).channel = none) ∧
    (cc.EntrypointConfiguration = none →
      (flattenConsumerConfiguration cc).entrypoint_configuration = none) ∧
    (∀ ec, cc.EntrypointConfiguration = some ec → ec.Headers = [] →
      (flattenConsumerConfiguration cc).entrypoint_configuration =
        some [{ callback_url := ec.CallbackURL, headers := none }]) := by
  obtain ⟨eid, ch, ec⟩ := cc
  cases ec with
  | none =>
    by_cases hch : ch = "" <;> simp [flattenConsumerConfiguration, hch]
  | some ec =>
    obtain ⟨url, hs⟩ := ec
    by_cases hch : ch = "" <;> by_cases hh : hs = [] <;>
      simp [flattenConsumerConfiguration, hch, hh, List.length_pos]

/-- The consumer configuration of any map with at most one entrypoint
configuration survives expand and flatten, read back as a block. -/
theorem consumerConfiguration_map_round_trip (c : ConsumerConfigurationMap)
    (hc : c.wellFormed) :
    (flattenConsumerConfiguration (expandConsumerConfiguration c)).toBlock = c.toBlock := by
  obtain ⟨eid, ch, ecs⟩ := c
  unfold ConsumerConfigurationMap.wellFormed at hc
  have hch : ∀ (v : String), ((if v = "" then (none : Option String) else some v).getD "") = v := by
    intro v
    by_cases hv : v = "" <;> simp [hv]
  match ecs, hc with
  | none, _ =>
    cases ch <;>
      simp [flattenConsumerConfiguration, expandConsumerConfiguration,
        ConsumerConfigurationMap.toBlock, apply_ite, hch]
  | some [], _ =>
    cases ch <;>
      simp [flattenConsumerConfiguration, expandConsumerConfiguration,
        ConsumerConfigurationMap.toBlock, apply_ite, hch]
  | some [e], _ =>
    obtain ⟨url, hs⟩ := e
    have hhs : ∀ (l : List HeaderBlock),
        ((if 0 < l.length then some l else none).getD []) = l := by
      intro l
      cases l <;> simp
    cases ch <;> cases hs <;>
      simp [flattenConsumerConfiguration, expandConsumerConfiguration,
        ConsumerConfigurationMap.toBlock, EntrypointConfigurationMap.toBlock, apply_ite, hch,
        hhs, Function.comp_def]
  | some (_ :: _ :: _), h => simp at h

/-- C12: for a record `d` within the schema's `MaxItems: 1` limits, flattening
the expanded subscription back into `d` raises no error and gives `d` again
except for `status`: `plan_id`, `application_id`, `consumer_configuration`
and `metadata` are those of `d`; the same four fields come out when the
target is any record that has no consumer configuration, respectively no
metadata, where `d` has none. For every consumer configuration map within the
limit, `flattenConsumerConfiguration` after `expandConsumerConfiguration`
reads back as the same block: the same `entrypoint_id`, `channel`,
`callback_url` and header list. What is absent stays absent: no consumer
configuration and no metadata give a nil pointer and a nil map, and the
flattened map has no key for an empty channel, a missing entrypoint
configuration or an empty header list, never an empty container. -/
theorem subscription_round_trip (d : SubscriptionResourceData) (hwf : d.cur.wellFormed) :
    flattenSubscription d (expandSubscription d) =
      ({ d with cur := { d.cur with status := "" } }, none) ∧
    (∀ base : SubscriptionResourceData,
      (d.cur.consumer_configuration = [] → base.cur.consumer_configuration = []) →
      (d.cur.metadata = [] → base.cur.metadata = []) →
      (flattenSubscription base (expandSubscription d)).1.cur.plan_id = d.cur.plan_id ∧
      (flattenSubscription base (expandSubscription d)).1.cur.application_id =
        d.cur.application_id ∧
      (flattenSubscription base (expandSubscription d)).1.cur.consumer_configuration =
        d.cur.consumer_configuration ∧
      (flattenSubscription base (expandSubscription d)).1.cur.metadata = d.cur.metadata) ∧
    (∀ c : ConsumerConfigurationMap, c.wellFormed →
      (flattenConsumerConfiguration (expandConsumerConfiguration c)).toBlock = c.toBlock) ∧
    (d.cur.consumer_configuration = [] → (expandSubscription d).ConsumerConfiguration = none) ∧
    (d.cur.metadata = [] → (expandSubscription d).Metadata = none) ∧
    (∀ c : ConsumerConfigurationMap,
      (flattenConsumerConfiguration (expandConsumerConfiguration c)).channel ≠ some "" ∧
      (flattenConsumerConfiguration (expandConsumerConfiguration c)).entrypoint_configuration ≠
        some [] ∧
      (∀ e ∈ (flattenConsumerConfiguration
          (expandConsumerConfiguration c)).entrypoint_configuration.getD [],
        e.headers ≠ some []) ∧
      (c.channel.getD "" = "" →
        (flattenConsumerConfiguration (expandConsumerConfiguration c)).channel = none) ∧
      (c.entrypoint_configuration.getD [] = [] →
        (expandConsumerConfiguration c).EntrypointConfiguration = none ∧
        (flattenConsumerConfiguration (expandConsumerConfiguration c)).entrypoint_configuration =
          none) ∧
      (∀ e rest, c.entrypoint_configuration = some (e :: rest) → e.headers.getD [] = [] →
        (flattenConsumerConfiguration (expandConsumerConfiguration c)).entrypoint_configuration =
          some [{ callback_url := e.callback_url, headers := none }])) := by
  have hblock : ∀ base : SubscriptionResourceData,
      (d.cur.consumer_configuration = [] → base.cur.consumer_configuration = []) →
      (d.cur.metadata = [] → base.cur.metadata = []) →
      (flattenSubscription base (expandSubscription d)).1.cur =
        { base.cur with plan_id := d.cur.plan_id, application_id := d.cur.application_id,
                        status := "", consumer_configuration := d.cur.consumer_configuration,
                        metadata := d.cur.metadata } ∧
      (flattenSubscription base (expandSubscription d)).1.id = base.id ∧
      (flattenSubscription base (expandSubscription d)).1.state = base.state ∧
      (flattenSubscription base (expandSubscription d)).2 = none := by
    intro base hcc hmd
    rw [expandSubscription_fields]
    obtain ⟨hlen, hecs⟩ := hwf
    match hl : d.cur.consumer_configuration, hlen with
    | [], _ =>
      have hb := hcc hl
      by_cases hm : d.cur.metadata = []
      · have hb2 := hmd hm
        simp [flattenSubscription, SubscriptionResourceData.Set, hm, hl, hb, hb2]
      · simp [flattenSubscription, SubscriptionResourceData.Set, hm, hl, hb]
    | [b], _ =>
      have hbb := consumerConfiguration_block_round_trip b (hecs b (by rw [hl]; simp))
      by_cases hm : d.cur.metadata = []
      · have hb2 := hmd hm
        simp [flattenSubscription, SubscriptionResourceData.Set, hm, hl, hbb, hb2]
      · simp [flattenSubscription, SubscriptionResourceData.Set, hm, hl, hbb]
    | _ :: _ :: _, h => simp at h
  refine ⟨?_, ?_, fun c hc => consumerConfiguration_map_round_trip c hc, ?_, ?_, ?_⟩
  · obtain ⟨h1, h2, h3, h4⟩ := hblock d (fun h => h) (fun h => h)
    rcases hres : flattenSubscription d (expandSubscription d) with ⟨out, err⟩
    rw [hres] at h1 h2 h3 h4
    simp only at h1 h2 h3 h4
    obtain ⟨oid, ostate, ocur⟩ := out
    simp only at h1 h2 h3
    subst h1 h2 h3 h4
    rfl
  · intro base hcc hmd
    obtain ⟨h1, -, -, -⟩ := hblock base hcc hmd
    rw [h1]
    exact ⟨rfl, rfl, rfl, rfl⟩
  · intro hcc
    rw [expandSubscription_fields]
    simp [hcc]
  · intro hmd
    rw [expandSubscription_fields]
    simp [hmd]
  · intro c
    obtain ⟨h1, h2, h3, h4, h5, h6⟩ :=
      flattenConsumerConfiguration_omits (expandConsumerConfiguration c)
    refine ⟨h1, h2, h3, ?_, ?_, ?_⟩
    · intro hch
      apply h4
      obtain ⟨eid, ch, ecs⟩ := c
      cases ch with
      | none => cases ecs with
        | none => simp [expandConsumerConfiguration]
        | some l => cases l <;> simp [expandConsumerConfiguration]
      | some v =>
        simp only [Option.getD_some] at hch
        subst hch
        cases ecs with
        | none => simp [expandConsumerConfiguration]
        | some l => cases l <;> simp [expandConsumerConfiguration]
    · intro hec
      have hnone : (expandConsumerConfiguration c).EntrypointConfiguration = none := by
        obtain ⟨eid, ch, ecs⟩ := c
        cases ecs with
        | none => cases ch <;> simp [expandConsumerConfiguration]
        | some l =>
          simp only [Option.getD_some] at hec
          subst hec
          cases ch <;> simp [expandConsumerConfiguration]
      exact ⟨hnone, h5 hnone⟩
    · intro e rest hec hh
      obtain ⟨eid, ch, ecs⟩ := c
      simp only at hec
      subst hec
      obtain ⟨url, hs⟩ := e
      have hex : (expandConsumerConfiguration
          { entrypoint_id := eid, channel := ch,
            entrypoint_configuration := some ({ callback_url := url, headers := hs } :: rest)
          }).EntrypointConfiguration = some { CallbackURL := url, Headers := [] } := by
        cases hs with
        | none => cases ch <;> simp [expandConsumerConfiguration]
        | some l =>
          simp only [Option.getD_some] at hh
          subst hh
          cases ch <;> simp [expandConsumerConfiguration]
      exact h6 _ hex rfl

/-- Witness of C12: `webhookSubscription`, which has a channel, a callback URL,
two headers and one metadata entry. -/
theorem subscription_round_trip_witness :
    webhookSubscription.cur.wellFormed ∧
    flattenSubscription webhookSubscription (expandSubscription webhookSubscription) =
      ({ webhookSubscription with cur := { webhookSubscription.cur with status := "" } },
       none) :=
  ⟨by decide, (subscription_round_trip webhookSubscription (by decide)).1⟩

/-! ## The update body -/

/-- C13 (code bug): the body that `UpdateSubscription` sends has exactly the two
members `"configuration"` and `"metadata"`, for every subscription: `planId`
and `applicationId` are never in it, and neither is `consumerConfiguration`,
the name under which the `Subscription` struct writes and reads the consumer
configuration. For `webhookUpdate` the one request sent is a `PUT` with that
body, whose `"configuration"` member is the marshalled consumer configuration
and whose `"metadata"` member is the marshalled metadata. -/
theorem updateSubscription_body_members :
    (∀ sub : Subscription,
      (marshalUpdateSubscriptionBody sub).memberNames = ["configuration", "metadata"]) ∧
    "consumerConfiguration" ∉ (marshalUpdateSubscriptionBody webhookUpdate).memberNames ∧
    "planId" ∉ (marshalUpdateSubscriptionBody webhookUpdate).memberNames ∧
    "applicationId" ∉ (marshalUpdateSubscriptionBody webhookUpdate).memberNames ∧
    "consumerConfiguration" ∈ (marshalSubscription webhookUpdate).memberNames ∧
    ((demoClient.UpdateSubscription (constRemote 200) "api-1" webhookUpdate
        Session.empty).2.sent.map fun req => (req.Method, req.Body)) =
      [("PUT", some (Json.obj
        [("configuration", marshalConsumerConfiguration
            { EntrypointID := "webhook", Channel := "orders",
              EntrypointConfiguration := some
                { CallbackURL := "https://hooks.example/orders",
                  Headers := [{ Name := "X-Env", Value := "prod" },
                              { Name := "X-Team", Value := "core" }] } }),
         ("metadata", marshalStringMap [("owner", "core")])]))] := by
  refine ⟨fun sub => rfl, by decide, by decide, by decide, by decide, rfl⟩

/-! ## Failure semantics -/

theorem stopsAtFirstError_fail (call : ClientCall) (err : GoError) :
    stopsAtFirstError [{ call := call, err := some err }] (diag.FromErr err) :=
  Or.inr ⟨[], call, err, rfl, fun _ h => absurd h (List.not_mem_nil _), rfl⟩

theorem stopsAtFirstError_ok (call : ClientCall) :
    stopsAtFirstError [{ call := call, err := none }] [] :=
  Or.inl ⟨fun r h => by rw [List.mem_singleton.mp h], rfl⟩

theorem stopsAtFirstError_append (pre calls : List CallRecord) (diags : Diagnostics)
    (hpre : ∀ r ∈ pre, r.err = none) (h : stopsAtFirstError calls diags) :
    stopsAtFirstError (pre ++ calls) diags := by
  rcases h with ⟨hall, hd⟩ | ⟨before, call, err, hc, hb, hd⟩
  · refine Or.inl ⟨fun r hr => ?_, hd⟩
    rcases List.mem_append.mp hr with h | h
    · exact hpre r h
    · exact hall r h
  · refine Or.inr ⟨pre ++ before, call, err, ?_, fun r hr => ?_, hd⟩
    · rw [hc, List.append_assoc]
    · rcases List.mem_append.mp hr with h | h
      · exact hpre r h
      · exact hb r h

/-- A list that stops at the first error has the failure semantics of a pass. -/
theorem abortsOnFirstFailure_of_stops {δ : Type} (p : Pass δ) (s : Session)
    (h : stopsAtFirstError (p.callsSince s) p.diags) : p.abortsOnFirstFailure s := by
  rcases h with ⟨hall, hd⟩ | ⟨pre, call, e, hc, hb, hd⟩
  · refine ⟨fun before r after err hsplit herr => ?_, fun _ => hall⟩
    have hr : r ∈ p.callsSince s := by rw [hsplit]; simp
    rw [hall r hr] at herr
    exact absurd herr (by simp)
  · refine ⟨fun before r after err hsplit herr => ?_, fun hnil => ?_⟩
    · rw [hc] at hsplit
      rcases List.eq_nil_or_concat after with hafter | ⟨init, last, hafter⟩
      · subst hafter
        have hinj := List.append_inj' hsplit rfl
        have hlast : ({ call := call, err := some e } : CallRecord) = r := by
          have := hinj.2
          simpa using this
        rw [← hlast] at herr
        simp only [Option.some.injEq] at herr
        subst herr
        exact ⟨rfl, hd⟩
      · rw [hafter] at hsplit
        have hsplit2 : pre ++ [{ call := call, err := some e }] =
            (before ++ r :: init) ++ [last] := by
          rw [hsplit]
          simp
        have hinj := List.append_inj' hsplit2 rfl
        have hr : r ∈ pre := by rw [hinj.1]; simp
        rw [hb r hr] at herr
        exact absurd herr (by simp)
    · rw [hd] at hnil
      exact absurd hnil (by simp [diag.FromErr])

theorem callsSince_of_calls {δ : Type} (p : Pass δ) (s0 s : Session) (pre l : List CallRecord)
    (hs : s.calls = s0.calls ++ pre) (hp : p.session.calls = s.calls ++ l) :
    p.callsSince s0 = pre ++ l := by
  apply callsSince_append
  rw [hp, hs, List.append_assoc]

/-- The plan read-back stops at the first error, also as the tail of a pass
whose earlier calls `pre` returned no error. -/
theorem planRead_stops_from (client : Client) (rt : Remote) (d : PlanResourceData)
    (s0 s : Session) (pre : List CallRecord) (hs : s.calls = s0.calls ++ pre)
    (hpre : ∀ r ∈ pre, r.err = none) :
    stopsAtFirstError ((resourceGraviteePlanRead client rt d s).callsSince s0)
      (resourceGraviteePlanRead client rt d s).diags := by
  rw [callsSince_of_calls _ s0 s pre _ hs (planRead_calls client rt d s)]
  apply stopsAtFirstError_append _ _ _ hpre
  unfold resourceGraviteePlanRead
  simp only [PlanResourceData.Id]
  rcases hg : client.GetPlan rt d.cur.api_id d.id s with ⟨r, s1⟩
  cases r with
  | error err => exact stopsAtFirstError_fail _ err
  | ok v =>
    cases v with
    | none => exact stopsAtFirstError_ok _
    | some plan => exact stopsAtFirstError_ok _

/-- The subscription read-back stops at the first error, also as the tail of a
pass whose earlier calls `pre` returned no error. -/
theorem subscriptionRead_stops_from (client : Client) (rt : Remote)
    (d : SubscriptionResourceData) (s0 s : Session) (pre : List CallRecord)
    (hs : s.calls = s0.calls ++ pre) (hpre : ∀ r ∈ pre, r.err = none) :
    stopsAtFirstError ((resourceGraviteeSubscriptionRead client rt d s).callsSince s0)
      (resourceGraviteeSubscriptionRead client rt d s).diags := by
  rw [callsSince_of_calls _ s0 s pre _ hs (subscriptionRead_calls client rt d s)]
  apply stopsAtFirstError_append _ _ _ hpre
  unfold resourceGraviteeSubscriptionRead
  simp only [SubscriptionResourceData.Id]
  rcases hg : client.GetSubscription rt d.cur.api_id d.id s with ⟨r, s1⟩
  cases r with
  | error err => exact stopsAtFirstError_fail _ err
  | ok v =>
    cases v with
    | none => exact stopsAtFirstError_ok _
    | some sub => exact stopsAtFirstError_ok _

/-- A pass that ends after the calls `pre`, which returned no error, and one
call that returned `err`, with `diag.FromErr err`. -/
theorem stops_of_failed_call {δ : Type} (p : Pass δ) (s0 : Session) (pre : List CallRecord)
    (call : ClientCall) (err : GoError)
    (hcalls : p.session.calls = s0.calls ++ (pre ++ [{ call := call, err := some err }]))
    (hpre : ∀ r ∈ pre, r.err = none) (hd : p.diags = diag.FromErr err) :
    stopsAtFirstError (p.callsSince s0) p.diags := by
  rw [callsSince_append _ _ _ hcalls, hd]
  exact stopsAtFirstError_append _ _ _ hpre (stopsAtFirstError_fail call err)

/-- The plan create pass stops at the first error. -/
theorem planCreate_stops (client : Client) (rt : Remote) (d : PlanResourceData)
    (s : Session) :
    stopsAtFirstError ((resourceGraviteePlanCreate client rt d s).callsSince s)
      (resourceGraviteePlanCreate client rt d s).diags := by
  have h1 := CreatePlan_calls client rt d.cur.api_id (expandPlan d) s
  unfold resourceGraviteePlanCreate
  simp only [PlanResourceData.SetId]
  rcases hc : client.CreatePlan rt d.cur.api_id (expandPlan d) s with ⟨r1, s1⟩
  rw [hc] at h1
  simp only at h1
  cases r1 with
  | error err =>
    exact stops_of_failed_call _ s [] _ err (by simpa [errOf] using h1) (by simp) rfl
  | ok createdPlan =>
    have hs1 : s1.calls = s.calls ++
        [{ call := ClientCall.CreatePlan d.cur.api_id (expandPlan d), err := none }] := by
      simpa [errOf] using h1
    have h2 := PublishPlan_calls client rt d.cur.api_id createdPlan.ID s1
    simp only
    split
    · rcases hp : client.PublishPlan rt d.cur.api_id createdPlan.ID s1 with ⟨e2, s2⟩
      rw [hp] at h2
      simp only at h2
      cases e2 with
      | some err =>
        exact stops_of_failed_call _ s
          [{ call := ClientCall.CreatePlan d.cur.api_id (expandPlan d), err := none }]
          (ClientCall.PublishPlan d.cur.api_id createdPlan.ID) err
          (by simp [h2, hs1]) (by simp) rfl
      | none =>
        exact planRead_stops_from client rt _ s s2
          [{ call := ClientCall.CreatePlan d.cur.api_id (expandPlan d), err := none },
           { call := ClientCall.PublishPlan d.cur.api_id createdPlan.ID, err := none }]
          (by simp [h2, hs1]) (by simp)
    · exact planRead_stops_from client rt _ s s1 _ hs1 (by simp)

/-- The plan update pass stops at the first error. -/
theorem planUpdate_stops (client : Client) (rt : Remote) (d : PlanResourceData)
    (s : Session) :
    stopsAtFirstError ((resourceGraviteePlanUpdate client rt d s).callsSince s)
      (resourceGraviteePlanUpdate client rt d s).diags := by
  have h1 := UpdatePlan_calls client rt d.cur.api_id { expandPlan d with ID := d.id } s
  unfold resourceGraviteePlanUpdate
  simp only [PlanResourceData.Id]
  rcases hu : client.UpdatePlan rt d.cur.api_id { expandPlan d with ID := d.id } s with ⟨e1, s1⟩
  rw [hu] at h1
  simp only at h1
  cases e1 with
  | some err =>
    exact stops_of_failed_call _ s [] _ err (by simpa using h1) (by simp) rfl
  | none =>
    have h2 := PublishPlan_calls client rt d.cur.api_id d.id s1
    simp only
    split
    · rcases hp : client.PublishPlan rt d.cur.api_id d.id s1 with ⟨e2, s2⟩
      rw [hp] at h2
      simp only at h2
      cases e2 with
      | some err =>
        exact stops_of_failed_call _ s
          [{ call := ClientCall.UpdatePlan d.cur.api_id { expandPlan d with ID := d.id },
             err := none }]
          (ClientCall.PublishPlan d.cur.api_id d.id) err
          (by simp [h2, h1]) (by simp) rfl
      | none =>
        exact planRead_stops_from client rt _ s s2
          [{ call := ClientCall.UpdatePlan d.cur.api_id { expandPlan d with ID := d.id },
             err := none },
           { call := ClientCall.PublishPlan d.cur.api_id d.id, err := none }]
          (by simp [h2, h1]) (by simp)
    · exact planRead_stops_from client rt _ s s1 _ h1 (by simp)

/-- The plan delete pass stops at the first error. -/
theorem planDelete_stops (client : Client) (rt : Remote) (d : PlanResourceData)
    (s : Session) :
    stopsAtFirstError ((resourceGraviteePlanDelete client rt d s).callsSince s)
      (resourceGraviteePlanDelete client rt d s).diags := by
  rw [callsSince_append _ _ _ (planDelete_calls client rt d s)]
  have ho := planDelete_outcome client rt d s
  cases he : (client.DeletePlan rt d.cur.api_id d.id s).1 with
  | some err =>
    rw [he] at ho
    rw [ho.1]
    exact stopsAtFirstError_fail _ err
  | none =>
    rw [he] at ho
    rw [ho.1]
    exact stopsAtFirstError_ok _

/-- The subscription delete pass stops at the first error. -/
theorem subscriptionDelete_stops (client : Client) (rt : Remote)
    (d : SubscriptionResourceData) (s : Session) :
    stopsAtFirstError ((resourceGraviteeSubscriptionDelete client rt d s).callsSince s)
      (resourceGraviteeSubscriptionDelete client rt d s).diags := by
  rw [callsSince_append _ _ _ (subscriptionDelete_calls client rt d s)]
  have ho := subscriptionDelete_outcome client rt d s
  cases he : (client.CloseSubscription rt d.cur.api_id d.id s).1 with
  | some err =>
    rw [he] at ho
    rw [ho.1]
    exact stopsAtFirstError_fail _ err
  | none =>
    rw [he] at ho
    rw [ho.1]
    exact stopsAtFirstError_ok _

/-- The subscription create pass stops at the first error. -/
theorem subscriptionCreate_stops (client : Client) (rt : Remote)
    (d : SubscriptionResourceData) (s : Session) :
    stopsAtFirstError ((resourceGraviteeSubscriptionCreate client rt d s).callsSince s)
      (resourceGraviteeSubscriptionCreate client rt d s).diags := by
  have h1 := CreateSubscription_calls client rt d.cur.api_id (expandSubscription d) s
  unfold resourceGraviteeSubscriptionCreate
  simp only [SubscriptionResourceData.SetId]
  rcases hc : client.CreateSubscription rt d.cur.api_id (expandSubscription d) s with ⟨r1, s1⟩
  rw [hc] at h1
  simp only at h1
  cases r1 with
  | error err =>
    exact stops_of_failed_call _ s [] _ err (by simpa [errOf] using h1) (by simp) rfl
  | ok created =>
    have hs1 : s1.calls = s.calls ++
        [{ call := ClientCall.CreateSubscription d.cur.api_id (expandSubscription d),
           err := none }] := by
      simpa [errOf] using h1
    have h2 := AcceptSubscription_calls client rt d.cur.api_id created.ID
      "Auto-approved by Terraform" s1
    simp only
    split
    · rcases hp : client.AcceptSubscription rt d.cur.api_id created.ID
        "Auto-approved by Terraform" s1 with ⟨e2, s2⟩
      rw [hp] at h2
      simp only at h2
      cases e2 with
      | some err =>
        exact stops_of_failed_call _ s
          [{ call := ClientCall.CreateSubscription d.cur.api_id (expandSubscription d),
             err := none }]
          (ClientCall.AcceptSubscription d.cur.api_id created.ID "Auto-approved by Terraform")
          err (by simp [h2, hs1]) (by simp) rfl
      | none =>
        exact subscriptionRead_stops_from client rt _ s s2
          [{ call := ClientCall.CreateSubscription d.cur.api_id (expandSubscription d),
             err := none },
           { call := ClientCall.AcceptSubscription d.cur.api_id created.ID
               "Auto-approved by Terraform", err := none }]
          (by simp [h2, hs1]) (by simp)
    · exact subscriptionRead_stops_from client rt _ s s1 _ hs1 (by simp)

/-- The part of the subscription update pass that follows the configuration
update stops at the first error, after earlier calls `pre` that returned none. -/
theorem subscriptionUpdate_tail_stops (client : Client) (rt : Remote)
    (d : SubscriptionResourceData) (s0 s1 : Session) (pre : List CallRecord)
    (hs : s1.calls = s0.calls ++ pre) (hpre : ∀ r ∈ pre, r.err = none)
    (p : Pass SubscriptionResourceData)
    (hp : p =
      if d.HasChange "plan_id" then
        match client.TransferSubscription rt d.cur.api_id d.id d.cur.plan_id s1 with
        | (some err, s) => { diags := diag.FromErr err, d := d, session := s }
        | (none, s) =>
          if d.cur.auto_validate then
            match client.AcceptSubscription rt d.cur.api_id d.id
                "Auto-approved transfer by Terraform" s with
            | (some err, s) => { diags := diag.FromErr err, d := d, session := s }
            | (none, s) => resourceGraviteeSubscriptionRead client rt d s
          else
            resourceGraviteeSubscriptionRead client rt d s
      else
        resourceGraviteeSubscriptionRead client rt d s1) :
    stopsAtFirstError (p.callsSince s0) p.diags := by
  subst hp
  split
  · have h2 := TransferSubscription_calls client rt d.cur.api_id d.id d.cur.plan_id s1
    rcases ht : client.TransferSubscription rt d.cur.api_id d.id d.cur.plan_id s1 with ⟨e2, s2⟩
    rw [ht] at h2
    simp only at h2
    cases e2 with
    | some err =>
      exact stops_of_failed_call _ s0 pre
        (ClientCall.TransferSubscription d.cur.api_id d.id d.cur.plan_id) err
        (by simp [h2, hs]) hpre rfl
    | none =>
      have hs2 : s2.calls = s0.calls ++ (pre ++
          [{ call := ClientCall.TransferSubscription d.cur.api_id d.id d.cur.plan_id,
             err := none }]) := by
        simp [h2, hs]
      have hpre2 : ∀ r ∈ pre ++
          [({ call := ClientCall.TransferSubscription d.cur.api_id d.id d.cur.plan_id,
              err := none } : CallRecord)], r.err = none := by
        intro r hr
        rcases List.mem_append.mp hr with h | h
        · exact hpre r h
        · rw [List.mem_singleton.mp h]
      simp only
      split
      · have h3 := AcceptSubscription_calls client rt d.cur.api_id d.id
          "Auto-approved transfer by Terraform" s2
        rcases ha : client.AcceptSubscription rt d.cur.api_id d.id
          "Auto-approved transfer by Terraform" s2 with ⟨e3, s3⟩
        rw [ha] at h3
        simp only at h3
        cases e3 with
        | some err =>
          exact stops_of_failed_call _ s0 _
            (ClientCall.AcceptSubscription d.cur.api_id d.id
              "Auto-approved transfer by Terraform") err
            (by rw [h3, hs2]; simp) hpre2 rfl
        | none =>
          refine subscriptionRead_stops_from client rt d s0 s3
            ((pre ++ [{ call := ClientCall.TransferSubscription d.cur.api_id d.id
                          d.cur.plan_id, err := none }]) ++
              [{ call := ClientCall.AcceptSubscription d.cur.api_id d.id
                   "Auto-approved transfer by Terraform", err := none }])
            (by rw [h3, hs2]; simp) ?_
          intro r hr
          rcases List.mem_append.mp hr with h | h
          · exact hpre2 r h
          · rw [List.mem_singleton.mp h]
      · exact subscriptionRead_stops_from client rt d s0 s2 _ hs2 hpre2
  · exact subscriptionRead_stops_from client rt d s0 s1 pre hs hpre

/-- The subscription update pass stops at the first error. -/
theorem subscriptionUpdate_stops (client : Client) (rt : Remote)
    (d : SubscriptionResourceData) (s : Session) :
    stopsAtFirstError ((resourceGraviteeSubscriptionUpdate client rt d s).callsSince s)
      (resourceGraviteeSubscriptionUpdate client rt d s).diags := by
  unfold resourceGraviteeSubscriptionUpdate
  simp only [SubscriptionResourceData.Id]
  by_cases hch : (d.HasChange "consumer_configuration" || d.HasChange "metadata") = true
  · simp only [hch, if_true]
    have h1 := UpdateSubscription_calls client rt d.cur.api_id
      { expandSubscription d with ID := d.id } s
    rcases hu : client.UpdateSubscription rt d.cur.api_id
      { expandSubscription d with ID := d.id } s with ⟨e1, s1⟩
    rw [hu] at h1
    simp only at h1
    cases e1 with
    | some err =>
      exact stops_of_failed_call _ s []
        (ClientCall.UpdateSubscription d.cur.api_id { expandSubscription d with ID := d.id })
        err (by simpa using h1) (by simp) rfl
    | none =>
      exact subscriptionUpdate_tail_stops client rt d s s1 _ h1 (by simp) _ rfl
  · simp only [hch, Bool.false_eq_true, if_false]
    exact subscriptionUpdate_tail_stops client rt d s s [] (by simp) (by simp) _ rfl

/-- C14: each of the six passes (plan create, update, delete; subscription
create, update, delete), started in any session, has the failure semantics
`Pass.abortsOnFirstFailure`: a call of the pass that returned an error is the
last call of the pass (no later transition, no read-back) and the pass returns
`diag.FromErr` of exactly that error; and a pass that returns no diagnostic
made no call that returned an error. -/
theorem passes_abort_on_first_failure (client : Client) (rt : Remote)
    (dp : PlanResourceData) (ds : SubscriptionResourceData) (s : Session) :
    (resourceGraviteePlanCreate client rt dp s).abortsOnFirstFailure s ∧
    (resourceGraviteePlanUpdate client rt dp s).abortsOnFirstFailure s ∧
    (resourceGraviteePlanDelete client rt dp s).abortsOnFirstFailure s ∧
    (resourceGraviteeSubscriptionCreate client rt ds s).abortsOnFirstFailure s ∧
    (resourceGraviteeSubscriptionUpdate client rt ds s).abortsOnFirstFailure s ∧
    (resourceGraviteeSubscriptionDelete client rt ds s).abortsOnFirstFailure s :=
  ⟨abortsOnFirstFailure_of_stops _ s (planCreate_stops client rt dp s),
   abortsOnFirstFailure_of_stops _ s (planUpdate_stops client rt dp s),
   abortsOnFirstFailure_of_stops _ s (planDelete_stops client rt dp s),
   abortsOnFirstFailure_of_stops _ s (subscriptionCreate_stops client rt ds s),
   abortsOnFirstFailure_of_stops _ s (subscriptionUpdate_stops client rt ds s),
   abortsOnFirstFailure_of_stops _ s (subscriptionDelete_stops client rt ds s)⟩

/-- In a list that stops at the first error, the diagnostics are those of any
error in the list. -/
theorem failureIsCallError_of_stops {δ : Type} (p : Pass δ) (s : Session)
    (h : stopsAtFirstError (p.callsSince s) p.diags) : p.failureIsCallError s := by
  intro r hr err herr
  rcases h with ⟨hall, -⟩ | ⟨pre, call, e, hc, hb, hd⟩
  · rw [hall r hr] at herr
    exact absurd herr (by simp)
  · rw [hc] at hr
    rcases List.mem_append.mp hr with h | h
    · rw [hb r h] at herr
      exact absurd herr (by simp)
    · rw [List.mem_singleton.mp h] at herr
      simp only [Option.some.injEq] at herr
      subst herr
      exact hd

/-- The error of `CreatePlan` for a rejected status. -/
theorem CreatePlan_rejected (c : Client) (rt : Remote) (apiID : String) (plan : Plan)
    (s : Session) (resp : Response)
    (hans : rt.answers s (createPlanRequest c apiID plan) resp)
    (h201 : resp.StatusCode ≠ 201) (h200 : resp.StatusCode ≠ 200) :
    (c.CreatePlan rt apiID plan s).1 =
      .error ("API returned status code " ++ toString resp.StatusCode) := by
  obtain ⟨hurl, hresp⟩ := hans
  simp only [createPlanRequest] at hurl hresp
  simp only [Client.CreatePlan, tracedResult, NewRequest, hurl, Do, Request.SetBasicAuth,
    Request.SetContentType, hresp]
  rw [if_pos ⟨h201, h200⟩]
  rfl

/-- The error of `GetPlan` for a rejected status. -/
theorem GetPlan_rejected (c : Client) (rt : Remote) (apiID planID : String)
    (s : Session) (resp : Response)
    (hans : rt.answers s (getPlanRequest c apiID planID) resp)
    (h404 : resp.StatusCode ≠ 404) (h200 : resp.StatusCode ≠ 200) :
    (c.GetPlan rt apiID planID s).1 =
      .error ("API returned status code " ++ toString resp.StatusCode) := by
  rw [GetPlan_result]
  exact (readOutcome_cases _ _ _).2.2 resp hans.1 hans.2 h404 h200

/-- The error of `UpdatePlan` for a rejected status. -/
theorem UpdatePlan_rejected (c : Client) (rt : Remote) (apiID : String) (plan : Plan)
    (s : Session) (resp : Response)
    (hans : rt.answers s (updatePlanRequest c apiID plan) resp)
    (h200 : resp.StatusCode ≠ 200) :
    (c.UpdatePlan rt apiID plan s).1 =
      some ("API returned status code " ++ toString resp.StatusCode) := by
  obtain ⟨hurl, hresp⟩ := hans
  simp only [updatePlanRequest] at hurl hresp
  simp only [Client.UpdatePlan, traced, NewRequest, hurl, Do, Request.SetBasicAuth,
    Request.SetContentType, hresp]
  rw [if_pos h200]
  rfl

/-- The error of `DeletePlan` for a rejected status. -/
theorem DeletePlan_rejected (c : Client) (rt : Remote) (apiID planID : String)
    (s : Session) (resp : Response)
    (hans : rt.answers s (deletePlanRequest c apiID planID) resp)
    (h204 : resp.StatusCode ≠ 204) (h200 : resp.StatusCode ≠ 200) :
    (c.DeletePlan rt apiID planID s).1 =
      some ("API returned status code " ++ toString resp.StatusCode) := by
  rw [DeletePlan_result c rt apiID planID s resp hans.1 hans.2, if_neg (by tauto)]
  rfl

/-- The error of `PublishPlan` for a rejected status. -/
theorem PublishPlan_rejected (c : Client) (rt : Remote) (apiID planID : String)
    (s : Session) (resp : Response)
    (hans : rt.answers s (publishPlanRequest c apiID planID) resp)
    (h200 : resp.StatusCode ≠ 200) :
    (c.PublishPlan rt apiID planID s).1 =
      some ("API returned status code " ++ toString resp.StatusCode) := by
  obtain ⟨hurl, hresp⟩ := hans
  simp only [publishPlanRequest] at hurl hresp
  simp only [Client.PublishPlan, traced, NewRequest, hurl, Do, Request.SetBasicAuth,
    Request.SetContentType, hresp]
  rw [if_pos h200]
  rfl

/-- The error of `CreateSubscription` for a rejected status. -/
theorem CreateSubscription_rejected (c : Client) (rt : Remote) (apiID : String)
    (subscription : Subscription) (s : Session) (resp : Response)
    (hans : rt.answers s (createSubscriptionRequest c apiID subscription) resp)
    (h201 : resp.StatusCode ≠ 201) (h200 : resp.StatusCode ≠ 200) :
    (c.CreateSubscription rt apiID subscription s).1 =
      .error ("API returned status code " ++ toString resp.StatusCode) := by
  obtain ⟨hurl, hresp⟩ := hans
  simp only [createSubscriptionRequest] at hurl hresp
  simp only [Client.CreateSubscription, tracedResult, NewRequest, hurl, Do,
    Request.SetBasicAuth, Request.SetContentType, hresp]
  rw [if_pos ⟨h201, h200⟩]
  rfl

/-- The error of `GetSubscription` for a rejected status. -/
theorem GetSubscription_rejected (c : Client) (rt : Remote) (apiID subscriptionID : String)
    (s : Session) (resp : Response)
    (hans : rt.answers s (getSubscriptionRequest c apiID subscriptionID) resp)
    (h404 : resp.StatusCode ≠ 404) (h200 : resp.StatusCode ≠ 200) :
    (c.GetSubscription rt apiID subscriptionID s).1 =
      .error ("API returned status code " ++ toString resp.StatusCode) := by
  rw [GetSubscription_result]
  exact (readOutcome_cases _ _ _).2.2 resp hans.1 hans.2 h404 h200

/-- The error of `UpdateSubscription` for a rejected status. -/
theorem UpdateSubscription_rejected (c : Client) (rt : Remote) (apiID : String)
    (subscription : Subscription) (s : Session) (resp : Response)
    (hans : rt.answers s (updateSubscriptionRequest c apiID subscription) resp)
    (h200 : resp.StatusCode ≠ 200) :
    (c.UpdateSubscription rt apiID subscription s).1 =
      some ("API returned status code " ++ toString resp.StatusCode) := by
  obtain ⟨hurl, hresp⟩ := hans
  simp only [updateSubscriptionRequest] at hurl hresp
  simp only [Client.UpdateSubscription, traced, NewRequest, hurl, Do, Request.SetBasicAuth,
    Request.SetContentType, hresp]
  rw [if_pos h200]
  rfl

/-- The error of `CloseSubscription` for a rejected status. -/
theorem CloseSubscription_rejected (c : Client) (rt : Remote)
    (apiID subscriptionID : String) (s : Session) (resp : Response)
    (hans : rt.answers s (closeSubscriptionRequest c apiID subscriptionID) resp)
    (h204 : resp.StatusCode ≠ 204) (h200 : resp.StatusCode ≠ 200) :
    (c.CloseSubscription rt apiID subscriptionID s).1 =
      some ("API returned status code " ++ toString resp.StatusCode) := by
  rw [CloseSubscription_result c rt apiID subscriptionID s resp hans.1 hans.2,
    if_neg (by tauto)]
  rfl

/-- The error of `TransferSubscription` for a rejected status. -/
theorem TransferSubscription_rejected (c : Client) (rt : Remote)
    (apiID subscriptionID newPlanID : String) (s : Session) (resp : Response)
    (hans : rt.answers s (transferSubscriptionRequest c apiID subscriptionID newPlanID) resp)
    (h200 : resp.StatusCode ≠ 200) :
    (c.TransferSubscription rt apiID subscriptionID newPlanID s).1 =
      some ("API returned status code " ++ toString resp.StatusCode) := by
  obtain ⟨hurl, hresp⟩ := hans
  simp only [transferSubscriptionRequest] at hurl hresp
  simp only [Client.TransferSubscription, traced, NewRequest, hurl, Do, Request.SetBasicAuth,
    Request.SetContentType, hresp]
  rw [if_pos h200]
  rfl

/-- The error of `AcceptSubscription` for a rejected status. -/
theorem AcceptSubscription_rejected (c : Client) (rt : Remote)
    (apiID subscriptionID reason : String) (s : Session) (resp : Response)
    (hans : rt.answers s (acceptSubscriptionRequest c apiID subscriptionID reason) resp)
    (h200 : resp.StatusCode ≠ 200) :
    (c.AcceptSubscription rt apiID subscriptionID reason s).1 =
      some ("API returned status code " ++ toString resp.StatusCode) := by
  obtain ⟨hurl, hresp⟩ := hans
  simp only [acceptSubscriptionRequest] at hurl hresp
  simp only [Client.AcceptSubscription, traced, NewRequest, hurl, Do, Request.SetBasicAuth,
    Request.SetContentType, hresp]
  rw [if_pos h200]
  rfl

/-- Each of the six passes stops at the first error. -/
theorem passOutcomes_stop (client : Client) (rt : Remote) (dp : PlanResourceData)
    (ds : SubscriptionResourceData) (s : Session) :
    ∀ o ∈ passOutcomes client rt dp ds s, stopsAtFirstError o.1 o.2 := by
  intro o ho
  simp only [passOutcomes, List.mem_cons, List.mem_singleton, List.not_mem_nil, or_false]
    at ho
  rcases ho with h | h | h | h | h | h <;> subst h
  · exact planCreate_stops client rt dp s
  · exact planUpdate_stops client rt dp s
  · exact planDelete_stops client rt dp s
  · exact subscriptionCreate_stops client rt ds s
  · exact subscriptionUpdate_stops client rt ds s
  · exact subscriptionDelete_stops client rt ds s

/-- The diagnostics of a list that stops at the first error are `diag.FromErr`
of any error in the list. -/
theorem diags_of_stops (calls : List CallRecord) (diags : Diagnostics)
    (h : stopsAtFirstError calls diags) (r : CallRecord) (hr : r ∈ calls) (err : GoError)
    (herr : r.err = some err) : diags = diag.FromErr err := by
  rcases h with ⟨hall, -⟩ | ⟨pre, call, e, hc, hb, hd⟩
  · rw [hall r hr] at herr
    exact absurd herr (by simp)
  · rw [hc] at hr
    rcases List.mem_append.mp hr with h | h
    · rw [hb r h] at herr
      exact absurd herr (by simp)
    · rw [List.mem_singleton.mp h] at herr
      simp only [Option.some.injEq] at herr
      subst herr
      exact hd

/-- C15, as stated, fails: the create pass of `goldCreate` fails at `CreatePlan`
on a remote that answers 500 to every request, and at `PublishPlan` on
`publishRejectingRemote`, and the two passes return the same diagnostics. -/
theorem planCreate_failures_indistinguishable :
    (resourceGraviteePlanCreate demoClient (constRemote 500) goldCreate
        Session.empty).callsSince Session.empty =
      [{ call := ClientCall.CreatePlan "api-1" (expandPlan goldCreate),
         err := some "API returned status code 500" }] ∧
    (resourceGraviteePlanCreate demoClient publishRejectingRemote goldCreate
        Session.empty).callsSince Session.empty =
      [{ call := ClientCall.CreatePlan "api-1" (expandPlan goldCreate), err := none },
       { call := ClientCall.PublishPlan "api-1" "plan-1",
         err := some "API returned status code 500" }] ∧
    (resourceGraviteePlanCreate demoClient (constRemote 500) goldCreate Session.empty).diags =
      (resourceGraviteePlanCreate demoClient publishRejectingRemote goldCreate
        Session.empty).diags ∧
    (resourceGraviteePlanCreate demoClient (constRemote 500) goldCreate Session.empty).diags =
      [{ Severity := Severity.Error, Summary := "API returned status code 500",
         Detail := "" }] := by
  decide

/-- C15, amended: the failure that a pass returns is the error of the call
that failed, with no mark of the step.
(1) In each of the six passes, whenever a call returned `err`, the diagnostics
are the single diagnostic whose summary is `err`.
(2) Every client method that a pass calls, the primitive ones (`CreatePlan`,
`UpdatePlan`, `DeletePlan`, `CreateSubscription`, `UpdateSubscription`,
`CloseSubscription`), the transitions (`PublishPlan`, `TransferSubscription`,
`AcceptSubscription`) and the read-backs (`GetPlan`, `GetSubscription`),
returns for a status it rejects the same text, `"API returned status code "`
followed by the status.
(3) So any two passes, of any of the six kinds, on any clients, remotes,
resource data and sessions, in each of which some call returned the error of
a rejected status `n`, return the same diagnostics. -/
theorem failure_is_unannotated_call_error (client : Client) (rt : Remote)
    (dp : PlanResourceData) (ds : SubscriptionResourceData) (s : Session) :
    ((resourceGraviteePlanCreate client rt dp s).failureIsCallError s ∧
      (resourceGraviteePlanUpdate client rt dp s).failureIsCallError s ∧
      (resourceGraviteePlanDelete client rt dp s).failureIsCallError s ∧
      (resourceGraviteeSubscriptionCreate client rt ds s).failureIsCallError s ∧
      (resourceGraviteeSubscriptionUpdate client rt ds s).failureIsCallError s ∧
      (resourceGraviteeSubscriptionDelete client rt ds s).failureIsCallError s) ∧
    (∀ (apiID id newPlanID reason : String) (plan : Plan) (subscription : Subscription)
        (resp : Response),
      (rt.answers s (createPlanRequest client apiID plan) resp →
        resp.StatusCode ≠ 201 → resp.StatusCode ≠ 200 →
        (client.CreatePlan rt apiID plan s).1 =
          .error ("API returned status code " ++ toString resp.StatusCode)) ∧
      (rt.answers s (updatePlanRequest client apiID plan) resp →
        resp.StatusCode ≠ 200 →
        (client.UpdatePlan rt apiID plan s).1 =
          some ("API returned status code " ++ toString resp.StatusCode)) ∧
      (rt.answers s (deletePlanRequest client apiID id) resp →
        resp.StatusCode ≠ 204 → resp.StatusCode ≠ 200 →
        (client.DeletePlan rt apiID id s).1 =
          some ("API returned status code " ++ toString resp.StatusCode)) ∧
      (rt.answers s (publishPlanRequest client apiID id) resp →
        resp.StatusCode ≠ 200 →
        (client.PublishPlan rt apiID id s).1 =
          some ("API returned status code " ++ toString resp.StatusCode)) ∧
      (rt.answers s (getPlanRequest client apiID id) resp →
        resp.StatusCode ≠ 404 → resp.StatusCode ≠ 200 →
        (client.GetPlan rt apiID id s).1 =
          .error ("API returned status code " ++ toString resp.StatusCode)) ∧
      (rt.answers s (createSubscriptionRequest client apiID subscription) resp →
        resp.StatusCode ≠ 201 → resp.StatusCode ≠ 200 →
        (client.CreateSubscription rt apiID subscription s).1 =
          .error ("API returned status code " ++ toString resp.StatusCode)) ∧
      (rt.answers s (updateSubscriptionRequest client apiID subscription) resp →
        resp.StatusCode ≠ 200 →
        (client.UpdateSubscription rt apiID subscription s).1 =
          some ("API returned status code " ++ toString resp.StatusCode)) ∧
      (rt.answers s (closeSubscriptionRequest client apiID id) resp →
        resp.StatusCode ≠ 204 → resp.StatusCode ≠ 200 →
        (client.CloseSubscription rt apiID id s).1 =
          some ("API returned status code " ++ toString resp.StatusCode)) ∧
      (rt.answers s (transferSubscriptionRequest client apiID id newPlanID) resp →
        resp.StatusCode ≠ 200 →
        (client.TransferSubscription rt apiID id newPlanID s).1 =
          some ("API returned status code " ++ toString resp.StatusCode)) ∧
      (rt.answers s (acceptSubscriptionRequest client apiID id reason) resp →
        resp.StatusCode ≠ 200 →
        (client.AcceptSubscription rt apiID id reason s).1 =
          some ("API returned status code " ++ toString resp.StatusCode)) ∧
      (rt.answers s (getSubscriptionRequest client apiID id) resp →
        resp.StatusCode ≠ 404 → resp.StatusCode ≠ 200 →
        (client.GetSubscription rt apiID id s).1 =
          .error ("API returned status code " ++ toString resp.StatusCode))) ∧
    (∀ (client2 : Client) (rt2 : Remote) (dp2 : PlanResourceData)
        (ds2 : SubscriptionResourceData) (s2 : Session) (n : Nat),
      ∀ o ∈ passOutcomes client rt dp ds s, ∀ o2 ∈ passOutcomes client2 rt2 dp2 ds2 s2,
        (∃ r ∈ o.1, r.err = some ("API returned status code " ++ toString n)) →
        (∃ r ∈ o2.1, r.err = some ("API returned status code " ++ toString n)) →
        o.2 = o2.2 ∧
        o.2 = [{ Severity := Severity.Error,
                 Summary := "API returned status code " ++ toString n, Detail := "" }]) := by
  refine ⟨⟨failureIsCallError_of_stops _ s (planCreate_stops client rt dp s),
    failureIsCallError_of_stops _ s (planUpdate_stops client rt dp s),
    failureIsCallError_of_stops _ s (planDelete_stops client rt dp s),
    failureIsCallError_of_stops _ s (subscriptionCreate_stops client rt ds s),
    failureIsCallError_of_stops _ s (subscriptionUpdate_stops client rt ds s),
    failureIsCallError_of_stops _ s (subscriptionDelete_stops client rt ds s)⟩, ?_, ?_⟩
  · intro apiID id newPlanID reason plan subscription resp
    exact ⟨CreatePlan_rejected client rt apiID plan s resp,
      UpdatePlan_rejected client rt apiID plan s resp,
      DeletePlan_rejected client rt apiID id s resp,
      PublishPlan_rejected client rt apiID id s resp,
      GetPlan_rejected client rt apiID id s resp,
      CreateSubscription_rejected client rt apiID subscription s resp,
      UpdateSubscription_rejected client rt apiID subscription s resp,
      CloseSubscription_rejected client rt apiID id s resp,
      TransferSubscription_rejected client rt apiID id newPlanID s resp,
      AcceptSubscription_rejected client rt apiID id reason s resp,
      GetSubscription_rejected client rt apiID id s resp⟩
  · intro client2 rt2 dp2 ds2 s2 n o ho o2 ho2 hfail hfail2
    obtain ⟨r, hr, herr⟩ := hfail
    obtain ⟨r2, hr2, herr2⟩ := hfail2
    have h1 := diags_of_stops o.1 o.2 (passOutcomes_stop client rt dp ds s o ho) r hr _ herr
    have h2 := diags_of_stops o2.1 o2.2 (passOutcomes_stop client2 rt2 dp2 ds2 s2 o2 ho2)
      r2 hr2 _ herr2
    exact ⟨h1.trans h2.symm, h1⟩

/-- C16: `resourceGraviteePlanDelete` makes exactly one call, `DeletePlan` with
the stored id, and `resourceGraviteeSubscriptionDelete` exactly one call,
`CloseSubscription` with the stored id, whatever the status and the other
attributes are. When the call returns no error the pass returns no diagnostic
and the resource data is unchanged except for the id, which becomes empty;
when it returns an error the pass returns that error and the resource data,
id and attributes, is unchanged. So for a stored (non-empty) id, the id is
empty afterwards if and only if the call returned no error. -/
theorem delete_is_one_unconditional_call (client : Client) (rt : Remote)
    (dp : PlanResourceData) (ds : SubscriptionResourceData) (s : Session) :
    ((resourceGraviteePlanDelete client rt dp s).callsSince s =
        [{ call := ClientCall.DeletePlan dp.cur.api_id dp.id,
           err := (client.DeletePlan rt dp.cur.api_id dp.id s).1 }] ∧
      ((client.DeletePlan rt dp.cur.api_id dp.id s).1 = none →
        (resourceGraviteePlanDelete client rt dp s).diags = [] ∧
        (resourceGraviteePlanDelete client rt dp s).d = { dp with id := "" }) ∧
      (∀ err, (client.DeletePlan rt dp.cur.api_id dp.id s).1 = some err →
        (resourceGraviteePlanDelete client rt dp s).diags = diag.FromErr err ∧
        (resourceGraviteePlanDelete client rt dp s).d = dp) ∧
      (dp.id ≠ "" →
        ((resourceGraviteePlanDelete client rt dp s).d.id = "" ↔
          (client.DeletePlan rt dp.cur.api_id dp.id s).1 = none))) ∧
    ((resourceGraviteeSubscriptionDelete client rt ds s).callsSince s =
        [{ call := ClientCall.CloseSubscription ds.cur.api_id ds.id,
           err := (client.CloseSubscription rt ds.cur.api_id ds.id s).1 }] ∧
      ((client.CloseSubscription rt ds.cur.api_id ds.id s).1 = none →
        (resourceGraviteeSubscriptionDelete client rt ds s).diags = [] ∧
        (resourceGraviteeSubscriptionDelete client rt ds s).d = { ds with id := "" }) ∧
      (∀ err, (client.CloseSubscription rt ds.cur.api_id ds.id s).1 = some err →
        (resourceGraviteeSubscriptionDelete client rt ds s).diags = diag.FromErr err ∧
        (resourceGraviteeSubscriptionDelete client rt ds s).d = ds) ∧
      (ds.id ≠ "" →
        ((resourceGraviteeSubscriptionDelete client rt ds s).d.id = "" ↔
          (client.CloseSubscription rt ds.cur.api_id ds.id s).1 = none))) := by
  have oP := planDelete_outcome client rt dp s
  have oS := subscriptionDelete_outcome client rt ds s
  refine ⟨⟨callsSince_append _ _ _ (planDelete_calls client rt dp s), ?_, ?_, ?_⟩,
    ⟨callsSince_append _ _ _ (subscriptionDelete_calls client rt ds s), ?_, ?_, ?_⟩⟩
  · intro h
    rw [h] at oP
    exact oP
  · intro err h
    rw [h] at oP
    exact oP
  · intro hid
    cases h : (client.DeletePlan rt dp.cur.api_id dp.id s).1 with
    | none =>
      rw [h] at oP
      simp [oP.2]
    | some err =>
      rw [h] at oP
      simp [oP.2, hid]
  · intro h
    rw [h] at oS
    exact oS
  · intro err h
    rw [h] at oS
    exact oS
  · intro hid
    cases h : (client.CloseSubscription rt ds.cur.api_id ds.id s).1 with
    | none =>
      rw [h] at oS
      simp [oS.2]
    | some err =>
      rw [h] at oS
      simp [oS.2, hid]

end Gravitee
